import Mathlib

/-!
Verification development for the release-lifecycle supervisor of packit/ai-workflows.

The Python sources under `src/supervisor/` are shallowly embedded: pure functions
become Lean functions, external collaborators (HTTP fetches, JIRA/Errata mutations,
Testing Farm lookups) become explicit environment records and effect lists, and
Python exceptions become `Except`.  Machine details that the claims do not touch
(XML parsing, HTTP plumbing) are outside the embedding; the comparison engine is
embedded from the point where both documents are parsed into suite lists.

CPython iterates `set` objects in an unspecified (hash-seed dependent) order.
Wherever the source iterates a set (`compare_test_suites`, `compare_xunit_files`)
the embedding takes the iteration order as an explicit list parameter together
with a validity predicate (`KeysValid`, `SuiteKeysValid`) saying the list
enumerates the set exactly once; the canonical entry points instantiate it with
a first-occurrence deduplication, and all count-level theorems hold for every
valid enumeration.
-/

set_option maxRecDepth 8192

deriving instance DecidableEq for Except

namespace Supervisor

/-! ## Data model: src/supervisor/compare_xunit.py -/

/-- Embeds `XUnitTestCaseResult` (compare_xunit.py): pass/fail/error/skipped plus
the synthetic `missing` used for a name absent on one side. -/
inductive XUnitTestCaseResult
  | PASS
  | FAIL
  | ERROR
  | SKIPPED
  | MISSING
deriving DecidableEq, Repr, Fintype

/-- Embeds `XUnitTestCase` (compare_xunit.py). -/
structure XUnitTestCase where
  name : String
  url : String
  ref : String
  log_url : String
  result : XUnitTestCaseResult
deriving DecidableEq, Repr

/-- Embeds `XUnitTestSuite` (compare_xunit.py). -/
structure XUnitTestSuite where
  arch : String
  name : String
  test_cases : List XUnitTestCase
deriving DecidableEq, Repr

/-- Embeds `ComparisonResult` (compare_xunit.py). -/
inductive ComparisonResult
  | WORKS
  | REGRESSION
  | FIXED
  | BROKEN
  | DIFFERENCE
deriving DecidableEq, Repr, Fintype

/-- Embeds `XUnitTestCaseComparison` (compare_xunit.py). -/
structure XUnitTestCaseComparison where
  name : String
  arch : String
  url : String
  ref : String
  result_a : XUnitTestCaseResult
  result_b : XUnitTestCaseResult
  log_url_a : String
  log_url_b : String
deriving DecidableEq, Repr

/-- Embeds `XUnitComparisonCounts` (compare_xunit.py). -/
structure XUnitComparisonCounts where
  works : Nat := 0
  regression : Nat := 0
  fixed : Nat := 0
  broken : Nat := 0
  difference : Nat := 0
deriving DecidableEq, Repr

/-- Embeds `XUnitComparisonStatus` (compare_xunit.py). -/
structure XUnitComparisonStatus where
  generated : Bool
  reason : Option String := none
deriving DecidableEq, Repr

/-- Embeds `XUnitComparison` (compare_xunit.py).  The Python model has no
`works` detail list - only the count - which the embedding mirrors: there is
no `works` field of list type.  `metadata` is an insertion-ordered dict,
embedded as an association list. -/
structure XUnitComparison where
  status : XUnitComparisonStatus
  metadata : List (String × String) := []
  total_counts : XUnitComparisonCounts := {}
  regression : List XUnitTestCaseComparison := []
  fixed : List XUnitTestCaseComparison := []
  broken : List XUnitTestCaseComparison := []
  difference : List XUnitTestCaseComparison := []
deriving DecidableEq, Repr

/-! ## Comparison engine: src/supervisor/compare_xunit.py -/

/-- Python `{tc.name: tc for tc in suite.test_cases}` followed by `.get(key)`:
in a dict comprehension a later test case with the same name overwrites an
earlier one, so lookup returns the last test case bearing the name. -/
def caseMapGet (test_cases : List XUnitTestCase) (key : String) : Option XUnitTestCase :=
  (test_cases.filter (fun tc => tc.name == key)).getLast?

/-- Embeds `tc.result if tc else XUnitTestCaseResult.MISSING` for the lookup of `key`
in a suite's case map. -/
def resultOf (suite : XUnitTestSuite) (key : String) : XUnitTestCaseResult :=
  match caseMapGet suite.test_cases key with
  | some tc => tc.result
  | none => XUnitTestCaseResult.MISSING

/-- Embeds `tc.log_url if tc else ""`. -/
def logUrlOf (suite : XUnitTestSuite) (key : String) : String :=
  match caseMapGet suite.test_cases key with
  | some tc => tc.log_url
  | none => ""

/-- The if/elif classification chain in `compare_test_suites`
(compare_xunit.py lines 206-227). -/
def classify (result_a result_b : XUnitTestCaseResult) : ComparisonResult :=
  if result_a = .PASS ∧ result_b = .PASS then
    .WORKS
  else if result_a = .PASS ∧ (result_b = .FAIL ∨ result_b = .ERROR) then
    .REGRESSION
  else if (result_a = .FAIL ∨ result_a = .ERROR) ∧ result_b = .PASS then
    .FIXED
  else if (result_a = .FAIL ∨ result_a = .ERROR) ∧ (result_b = .FAIL ∨ result_b = .ERROR) then
    .BROKEN
  else
    .DIFFERENCE

/-- Embeds `setattr(output.total_counts, comparison_result.value, old_count + 1)`. -/
def bumpCounts (c : XUnitComparisonCounts) : ComparisonResult → XUnitComparisonCounts
  | .WORKS => { c with works := c.works + 1 }
  | .REGRESSION => { c with regression := c.regression + 1 }
  | .FIXED => { c with fixed := c.fixed + 1 }
  | .BROKEN => { c with broken := c.broken + 1 }
  | .DIFFERENCE => { c with difference := c.difference + 1 }

/-- Projection used to state count lemmas uniformly. -/
def XUnitComparisonCounts.get (c : XUnitComparisonCounts) : ComparisonResult → Nat
  | .WORKS => c.works
  | .REGRESSION => c.regression
  | .FIXED => c.fixed
  | .BROKEN => c.broken
  | .DIFFERENCE => c.difference

/-- Embeds `getattr(output, comparison_result.value).append(comparison)`; for `WORKS`
the code never appends (there is no works list). -/
def appendComparison (out : XUnitComparison) (cat : ComparisonResult)
    (comparison : XUnitTestCaseComparison) : XUnitComparison :=
  match cat with
  | .WORKS => out
  | .REGRESSION => { out with regression := out.regression ++ [comparison] }
  | .FIXED => { out with fixed := out.fixed ++ [comparison] }
  | .BROKEN => { out with broken := out.broken ++ [comparison] }
  | .DIFFERENCE => { out with difference := out.difference ++ [comparison] }

/-- Projection of the per-category detail lists; `WORKS` has no list. -/
def XUnitComparison.list (out : XUnitComparison) : ComparisonResult → List XUnitTestCaseComparison
  | .WORKS => []
  | .REGRESSION => out.regression
  | .FIXED => out.fixed
  | .BROKEN => out.broken
  | .DIFFERENCE => out.difference

/-- The `XUnitTestCaseComparison(...)` construction in `compare_test_suites`:
`some_case = tc_a or tc_b` supplies name/url/ref, `arch` comes from `suite_a`,
and the log URLs default to `""` for a missing side.  The fallback test case in
the double-`none` arm is unreachable for keys drawn from the union (the source
asserts `some_case is not None`). -/
def mkComparisonEntry (suite_a suite_b : XUnitTestSuite) (key : String) :
    XUnitTestCaseComparison :=
  let tc_a := caseMapGet suite_a.test_cases key
  let tc_b := caseMapGet suite_b.test_cases key
  let some_case :=
    match tc_a, tc_b with
    | some tc, _ => tc
    | none, some tc => tc
    | none, none => { name := key, url := "", ref := "", log_url := "", result := .MISSING }
  { name := some_case.name
    arch := suite_a.arch
    url := some_case.url
    ref := some_case.ref
    result_a := resultOf suite_a key
    result_b := resultOf suite_b key
    log_url_a := logUrlOf suite_a key
    log_url_b := logUrlOf suite_b key }

/-- One iteration of the `for key in all_keys` loop body of
`compare_test_suites`. -/
def processKey (suite_a suite_b : XUnitTestSuite) (out : XUnitComparison)
    (key : String) : XUnitComparison :=
  let comparison_result := classify (resultOf suite_a key) (resultOf suite_b key)
  let bumped := { out with total_counts := bumpCounts out.total_counts comparison_result }
  if comparison_result = ComparisonResult.WORKS then
    bumped
  else
    appendComparison bumped comparison_result (mkComparisonEntry suite_a suite_b key)

/-- Embeds `compare_test_suites` (compare_xunit.py lines 180-244).  The Python
iterates `all_keys = set(case_map_a) | set(case_map_b)` in unspecified set
order; the embedding takes that iteration order as the explicit `all_keys`
parameter. -/
def compare_test_suites (all_keys : List String) (suite_a suite_b : XUnitTestSuite)
    (output : XUnitComparison) : XUnitComparison :=
  all_keys.foldl (processKey suite_a suite_b) output

/-- A canonical enumeration of `set(case_map_a) | set(case_map_b)`:
first-occurrence deduplication of the names of both suites. -/
def unionKeys (suite_a suite_b : XUnitTestSuite) : List String :=
  ((suite_a.test_cases.map XUnitTestCase.name) ++
    (suite_b.test_cases.map XUnitTestCase.name)).dedup

/-- Here `keys` is one possible iteration order of
`set(case_map_a) | set(case_map_b)`: no duplicates and exactly the union's
elements. -/
def KeysValid (keys : List String) (suite_a suite_b : XUnitTestSuite) : Prop :=
  keys.Nodup ∧ keys ⊆ unionKeys suite_a suite_b ∧ unionKeys suite_a suite_b ⊆ keys

instance (keys : List String) (suite_a suite_b : XUnitTestSuite) :
    Decidable (KeysValid keys suite_a suite_b) := by
  unfold KeysValid; infer_instance

/-- Embeds `(suite.name, suite.arch)` - the identity used to match suites across the
two documents. -/
def suiteKey (suite : XUnitTestSuite) : String × String :=
  (suite.name, suite.arch)

/-- A canonical enumeration of `{(suite.name, suite.arch) for suite in suites}`. -/
def suiteKeys (test_suites : List XUnitTestSuite) : List (String × String) :=
  (test_suites.map suiteKey).dedup

/-- Key-set equality check `test_suite_a_keys != test_suite_b_keys` (negated):
the two documents expose the same set of `(name, arch)` pairs. -/
def sameSuiteKeys (test_suites_a test_suites_b : List XUnitTestSuite) : Prop :=
  suiteKeys test_suites_a ⊆ suiteKeys test_suites_b ∧
    suiteKeys test_suites_b ⊆ suiteKeys test_suites_a

instance (a b : List XUnitTestSuite) : Decidable (sameSuiteKeys a b) := by
  unfold sameSuiteKeys; infer_instance

/-- Embeds `next(suite for suite in test_suites if suite.name == name and suite.arch == arch)`:
the first suite with the given key (duplicates beyond the first are ignored,
as the source comments). -/
def findSuite (test_suites : List XUnitTestSuite) (k : String × String) :
    Option XUnitTestSuite :=
  test_suites.find? (fun suite => suite.name == k.1 && suite.arch == k.2)

/-- The `ValueError` message raised for differing suite key-sets
(compare_xunit.py lines 295-303).  Python renders the two key sets with `set`
repr; the embedding renders the canonical enumerations instead - the theorems
depend only on the message stating both key sets. -/
def mismatchMessage (test_suites_a test_suites_b : List XUnitTestSuite) : String :=
  "XUnit files contain different test suites and cannot be compared:\n" ++
    "File A test suites: " ++ toString (repr (suiteKeys test_suites_a)) ++ "\n" ++
    "File B test suites: " ++ toString (repr (suiteKeys test_suites_b))

/-- The output object constructed on the success path of `compare_xunit_files`
(lines 305-311). -/
def initialComparison (metadata : List (String × String)) : XUnitComparison :=
  { status := { generated := true, reason := some "Comparison generated successfully" }
    metadata := metadata }

/-- One iteration of the `for name, arch in test_suite_a_keys` loop of
`compare_xunit_files` (lines 316-328), with the per-suite set enumerated
canonically. -/
def processSuiteKey (test_suites_a test_suites_b : List XUnitTestSuite)
    (output : XUnitComparison) (k : String × String) : XUnitComparison :=
  match findSuite test_suites_a k, findSuite test_suites_b k with
  | some suite_a, some suite_b =>
      compare_test_suites (unionKeys suite_a suite_b) suite_a suite_b output
  | _, _ => output

/-- Embeds `compare_xunit_files` (compare_xunit.py lines 247-330) from the
point where both documents are parsed: the download and XML parse are outside
the embedding, and the `ValueError` raised for differing suite key-sets is
`Except.error`.  `suite_keys` is the unspecified iteration order of
`test_suite_a_keys`. -/
def compareXunitDocs (suite_keys : List (String × String))
    (test_suites_a test_suites_b : List XUnitTestSuite)
    (metadata : List (String × String)) : Except String XUnitComparison :=
  if sameSuiteKeys test_suites_a test_suites_b then
    .ok (suite_keys.foldl (processSuiteKey test_suites_a test_suites_b)
      (initialComparison metadata))
  else
    .error (mismatchMessage test_suites_a test_suites_b)

/-- Here `suite_keys` is one possible iteration order of `test_suite_a_keys`. -/
def SuiteKeysValid (suite_keys : List (String × String))
    (test_suites_a : List XUnitTestSuite) : Prop :=
  suite_keys.Nodup ∧ suite_keys ⊆ suiteKeys test_suites_a ∧
    suiteKeys test_suites_a ⊆ suite_keys

/-- Embeds `compare_xunit_files` under the canonical enumeration of
`test_suite_a_keys`. -/
def compare_xunit_files (test_suites_a test_suites_b : List XUnitTestSuite)
    (metadata : List (String × String)) : Except String XUnitComparison :=
  compareXunitDocs (suiteKeys test_suites_a) test_suites_a test_suites_b metadata

/-! ## TOML serialization: `XUnitComparison.to_toml` (compare_xunit.py lines 94-107)

`to_toml` dumps the pydantic model in field order through `tomli_w.dumps`,
after dropping `total_counts` when all counts are zero and dropping empty
lists.  The embedding reproduces that structure; exact TOML escaping is
simplified to quoting (none of the verified strings need escapes).  The
theorems depend only on `to_toml` being a function of the structure that
renders list entries in list order. -/

def TOML_HEADER : String :=
  "# XUnit Comparison Report\n" ++
  "# It contains the results of comparing two XUnit test reports.\n" ++
  "# Each section lists test cases that differ between the two reports.\n" ++
  "# The 'total_counts' section summarizes the number of test cases in each comparison category.\n" ++
  "#\n" ++
  "# Comparison categories:\n" ++
  "# - regression: Test cases that passed in the first report but failed in the second.\n" ++
  "# - fixed: Test cases that failed in the first report but passed in the second.\n" ++
  "# - broken: Test cases that failed in both reports.\n" ++
  "# - works: Test cases that passed in both reports (not listed in detail).\n" ++
  "# - difference: Test cases with other combinations of status.\n"

def tomlQuote (s : String) : String := "\"" ++ s ++ "\""

def XUnitTestCaseResult.str : XUnitTestCaseResult → String
  | .PASS => "pass"
  | .FAIL => "fail"
  | .ERROR => "error"
  | .SKIPPED => "skipped"
  | .MISSING => "missing"

def statusToToml (s : XUnitComparisonStatus) : String :=
  "[status]\n" ++
  "generated = " ++ (if s.generated then "true" else "false") ++ "\n" ++
  (match s.reason with
   | some r => "reason = " ++ tomlQuote r ++ "\n"
   | none => "")

def metadataToToml (metadata : List (String × String)) : String :=
  "[metadata]\n" ++
    String.join (metadata.map (fun kv => kv.1 ++ " = " ++ tomlQuote kv.2 ++ "\n"))

def sumCounts (c : XUnitComparisonCounts) : Nat :=
  c.works + c.regression + c.fixed + c.broken + c.difference

def countsToToml (c : XUnitComparisonCounts) : String :=
  "[total_counts]\n" ++
  "works = " ++ toString c.works ++ "\n" ++
  "regression = " ++ toString c.regression ++ "\n" ++
  "fixed = " ++ toString c.fixed ++ "\n" ++
  "broken = " ++ toString c.broken ++ "\n" ++
  "difference = " ++ toString c.difference ++ "\n"

def entryToToml (sectionName : String) (e : XUnitTestCaseComparison) : String :=
  "[[" ++ sectionName ++ "]]\n" ++
  "name = " ++ tomlQuote e.name ++ "\n" ++
  "arch = " ++ tomlQuote e.arch ++ "\n" ++
  "url = " ++ tomlQuote e.url ++ "\n" ++
  "ref = " ++ tomlQuote e.ref ++ "\n" ++
  "result_a = " ++ tomlQuote e.result_a.str ++ "\n" ++
  "result_b = " ++ tomlQuote e.result_b.str ++ "\n" ++
  "log_url_a = " ++ tomlQuote e.log_url_a ++ "\n" ++
  "log_url_b = " ++ tomlQuote e.log_url_b ++ "\n"

def listToToml (sectionName : String) (entries : List XUnitTestCaseComparison) : String :=
  String.join (entries.map (entryToToml sectionName))

/-- Embeds `XUnitComparison.to_toml`: header, then the model in field order
with empty `total_counts` and empty lists dropped. -/
def to_toml (c : XUnitComparison) : String :=
  TOML_HEADER ++
  statusToToml c.status ++
  metadataToToml c.metadata ++
  (if sumCounts c.total_counts = 0 then "" else countsToToml c.total_counts) ++
  listToToml "regression" c.regression ++
  listToToml "fixed" c.fixed ++
  listToToml "broken" c.broken ++
  listToToml "difference" c.difference

/-! ## Shared types: src/supervisor/supervisor_types.py, common/constants.py,
src/supervisor/constants.py

Timestamps are embedded as `Int` seconds; `WorkflowResult.reschedule_in` is a
Python float whose only values in this code are integral seconds, embedded as
`Int`. -/

/-- Embeds `IssueStatus` (supervisor_types.py). -/
inductive IssueStatus
  | NEW
  | PLANNING
  | REFINEMENT
  | IN_PROGRESS
  | INTEGRATION
  | RELEASE_PENDING
  | DONE
  | CLOSED
deriving DecidableEq, Repr

/-- The `StrEnum` string values; Python renders these in f-strings. -/
def IssueStatus.str : IssueStatus → String
  | .NEW => "New"
  | .PLANNING => "Planning"
  | .REFINEMENT => "Refinement"
  | .IN_PROGRESS => "In Progress"
  | .INTEGRATION => "Integration"
  | .RELEASE_PENDING => "Release Pending"
  | .DONE => "Done"
  | .CLOSED => "Closed"

/-- Embeds `ErrataStatus` (supervisor_types.py). -/
inductive ErrataStatus
  | NEW_FILES
  | QE
  | REL_PREP
  | PUSH_READY
  | IN_PUSH
  | DROPPED_NO_SHIP
  | SHIPPED_LIVE
deriving DecidableEq, Repr

def ErrataStatus.str : ErrataStatus → String
  | .NEW_FILES => "NEW_FILES"
  | .QE => "QE"
  | .REL_PREP => "REL_PREP"
  | .PUSH_READY => "PUSH_READY"
  | .IN_PUSH => "IN_PUSH"
  | .DROPPED_NO_SHIP => "DROPPED_NO_SHIP"
  | .SHIPPED_LIVE => "SHIPPED_LIVE"

/-- Embeds `TestCoverage` (supervisor_types.py). -/
inductive TestCoverage
  | MANUAL
  | AUTOMATED
  | REGRESSION_ONLY
  | NEW_TEST_COVERAGE
deriving DecidableEq, Repr

/-- Embeds `PreliminaryTesting` (supervisor_types.py). -/
inductive PreliminaryTesting
  | REQUESTED
  | FAIL
  | PASS
  | READY
deriving DecidableEq, Repr

/-- Embeds `TestingState` (supervisor_types.py). -/
inductive TestingState
  | NOT_RUNNING
  | PENDING
  | RUNNING
  | ERROR
  | FAILED
  | PASSED
  | WAIVED
deriving DecidableEq, Repr

/-- Embeds `TestingFarmRequestState` (supervisor_types.py). -/
inductive TestingFarmRequestState
  | NEW
  | QUEUED
  | RUNNING
  | ERROR
  | CANCELED
  | CANCEL_REQUESTED
  | COMPLETE
deriving DecidableEq, Repr

def TestingFarmRequestState.str : TestingFarmRequestState → String
  | .NEW => "new"
  | .QUEUED => "queued"
  | .RUNNING => "running"
  | .ERROR => "error"
  | .CANCELED => "canceled"
  | .CANCEL_REQUESTED => "cancel-requested"
  | .COMPLETE => "complete"

/-- Embeds `TestingFarmRequestResult` (supervisor_types.py). -/
inductive TestingFarmRequestResult
  | PASSED
  | FAILED
  | SKIPPED
  | UNKNOWN
  | ERROR
deriving DecidableEq, Repr

def TestingFarmRequestResult.str : TestingFarmRequestResult → String
  | .PASSED => "passed"
  | .FAILED => "failed"
  | .SKIPPED => "skipped"
  | .UNKNOWN => "unknown"
  | .ERROR => "error"

/-- Embeds `TestingFarmRequest` (supervisor_types.py) restricted to the fields
the supervisor logic reads; `arches` (derived from `environments_data`) is a
direct field and `created`/`updated`/`test_data` are omitted as no verified
path reads them. -/
structure TestingFarmRequest where
  id : String
  url : String
  state : TestingFarmRequestState
  result : TestingFarmRequestResult := .UNKNOWN
  error_reason : Option String := none
  result_xunit_url : Option String := none
  arches : List String := []
  build_nvr : String := ""
deriving DecidableEq, Repr

/-- Embeds `JiraComment` (supervisor_types.py) restricted to id and body
(author/timestamp fields are never read by the supervisor logic). -/
structure JiraComment where
  id : String
  body : String
deriving DecidableEq, Repr

/-- Embeds `Issue`/`FullIssue` (supervisor_types.py) restricted to the fields
the handlers read. -/
structure FullIssue where
  key : String
  url : String
  assignee_email : Option String := none
  summary : String := ""
  components : List String
  status : IssueStatus
  labels : List String
  fix_versions : List String := []
  errata_link : Option String
  fixed_in_build : Option String := none
  test_coverage : Option (List TestCoverage) := none
  preliminary_testing : Option PreliminaryTesting := none
  description : String := ""
  comments : List JiraComment := []
deriving DecidableEq, Repr

/-- Embeds `Erratum` (supervisor_types.py). -/
structure Erratum where
  id : Nat
  full_advisory : String
  url : String
  synopsis : String
  status : ErrataStatus
  jira_issues : List String
  release_id : Nat := 0
  publish_date : Option Int := none
  last_status_transition_timestamp : Int := 0
  assigned_to_email : String
  package_owner_email : String
deriving DecidableEq, Repr

/-- Embeds `WorkflowResult` (supervisor_types.py). -/
structure WorkflowResult where
  status : String
  reschedule_in : Int
deriving DecidableEq, Repr

/-- Embeds `WAIT_DELAY = 20 * 60` (work_item_handler.py). -/
def WAIT_DELAY : Int := 20 * 60

/-- Embeds `POST_PUSH_TESTING_TIMEOUT = timedelta(hours=3)` (constants.py), in seconds. -/
def POST_PUSH_TESTING_TIMEOUT : Int := 3 * 60 * 60

def POST_PUSH_TESTING_TIMEOUT_STR : String := "3 hours"

def ERRATA_JOTNAR_BOT_EMAIL : String := "jotnar-bot@IPA.REDHAT.COM"

def JIRA_JOTNAR_BOT_EMAIL : String := "jotnar+bot@redhat.com"

def TESTING_FARM_URL : String := "https://api.testing-farm.io/v0.1"

/-- The side effects the handlers issue against external systems (JIRA,
Errata Tool, Testing Farm).  Handler functions return the ordered list of
effects they perform together with the `WorkflowResult`; whether `dry_run`
suppresses the mutation is internal to the collaborators. -/
inductive Effect
  | changeIssueStatus (key : String) (status : IssueStatus) (comment : String)
  | addIssueLabel (key label comment : String)
  | removeIssueLabel (key label : String)
  | updateIssueComment (key commentId body : String)
  | addIssueAttachments (key : String) (attachments : List (String × String))
  | createIssue (project summary description tag : String)
      (labels components : List String)
  | erratumAddComment (erratumId : Nat) (comment : String)
  | erratumChangeState (erratumId : Nat) (status : ErrataStatus)
  | erratumChangeOwnership (erratumId : Nat) (email : String)
  | erratumPushToStage (erratumId : Nat)
  | erratumRefreshSecurityAlerts (erratumId : Nat)
  | testingFarmSubmit (requestId : String) (build_nvr : String)
deriving DecidableEq, Repr

/-- A handler step: the effects performed, in order, and the returned
`WorkflowResult`. -/
abbrev HandlerStep := List Effect × WorkflowResult

/-- Embeds `WorkItemHandler.resolve_remove_work_item` (work_item_handler.py). -/
def resolve_remove_work_item (why : String) : HandlerStep :=
  ([], { status := why, reschedule_in := -1 })

/-- Embeds `WorkItemHandler.resolve_wait` (work_item_handler.py); default delay
`WAIT_DELAY`. -/
def resolve_wait (why : String) (reschedule_in : Int := WAIT_DELAY) : HandlerStep :=
  ([], { status := why, reschedule_in := reschedule_in })

/-! ## Transition rules: src/supervisor/errata_utils.py lines 544-668 -/

/-- Embeds `TransitionRuleOutcome` (errata_utils.py). -/
inductive TransitionRuleOutcome
  | BLOCK
  | OK
  | UNKNOWN
deriving DecidableEq, Repr

/-- Embeds `TransitionRule` (errata_utils.py). -/
structure TransitionRule where
  name : String
  outcome : TransitionRuleOutcome
  details : String
deriving DecidableEq, Repr

/-- Embeds `TransitionRuleSet` (errata_utils.py). -/
structure TransitionRuleSet where
  from_status : ErrataStatus
  to_status : ErrataStatus
  rules : List TransitionRule
deriving DecidableEq, Repr

/-- Embeds `TransitionRuleSet.all_ok`: `all(rule.outcome == OK for rule in self.rules)`. -/
def TransitionRuleSet.all_ok (rs : TransitionRuleSet) : Bool :=
  rs.rules.all (fun rule => rule.outcome == TransitionRuleOutcome.OK)

/-- Embeds `ErratumPushStatus` (errata_utils.py). -/
inductive ErratumPushStatus
  | QUEUED
  | READY
  | RUNNING
  | WAITING_ON_PUB
  | POST_PUSH_PROCESSING
  | COMPLETE
  | FAILED
deriving DecidableEq, Repr

def ErratumPushStatus.str : ErratumPushStatus → String
  | .QUEUED => "QUEUED"
  | .READY => "READY"
  | .RUNNING => "RUNNING"
  | .WAITING_ON_PUB => "WAITING_ON_PUB"
  | .POST_PUSH_PROCESSING => "POST_PUSH_PROCESSING"
  | .COMPLETE => "COMPLETE"
  | .FAILED => "FAILED"

/-- Python renders `None` as `"None"` in f-strings. -/
def optPushStatusStr : Option ErratumPushStatus → String
  | some s => s.str
  | none => "None"

/-- Embeds `ErratumPushDetails` (errata_utils.py). -/
structure ErratumPushDetails where
  status : Option ErratumPushStatus
  updated_at : Option Int
deriving DecidableEq, Repr

/-- Embeds `ErratumPackageFileList.root`: variant → arch → set of subpackage names,
embedded as insertion-ordered association lists whose innermost level is a
set (compared order-insensitively, below). -/
abbrev ErratumPackageFileList := List (String × List (String × List String))

/-- Embeds `ErratumBuild` (errata_utils.py). -/
structure ErratumBuild where
  nvr : String
  package_file_list : ErratumPackageFileList
deriving DecidableEq, Repr

/-- Python `set == set` on the subpackage names (order-insensitive). -/
def strSetEq (xs ys : List String) : Bool :=
  xs.all (fun x => ys.contains x) && ys.all (fun y => xs.contains y)

/-- Python `dict == dict` on arch → subpackage-set maps: same key set, equal
values per key. -/
def archMapEq (xs ys : List (String × List String)) : Bool :=
  (xs.all fun kv =>
    match ys.find? (fun kv2 => kv2.1 == kv.1) with
    | some kv2 => strSetEq kv.2 kv2.2
    | none => false) &&
  (ys.all fun kv => (xs.find? (fun kv2 => kv2.1 == kv.1)).isSome)

/-- Python `dict == dict` on variant → arch-map maps (the pydantic equality
used by `compare_file_lists`). -/
def fileListEq (xs ys : ErratumPackageFileList) : Bool :=
  (xs.all fun kv =>
    match ys.find? (fun kv2 => kv2.1 == kv.1) with
    | some kv2 => archMapEq kv.2 kv2.2
    | none => false) &&
  (ys.all fun kv => (xs.find? (fun kv2 => kv2.1 == kv.1)).isSome)

/-- An apostrophe character, used by Python list reprs. -/
def squote : String := String.singleton (Char.ofNat 39)

/-- Python `f"{mismatch_packages}"`: the list repr `['a', 'b']`. -/
def pyStrListRepr (xs : List String) : String :=
  "[" ++ String.intercalate ", " (xs.map (fun s => squote ++ s ++ squote)) ++ "]"

/-- Embeds `ErratumBuild.model_dump_json(indent=2)` - a JSON rendering of the build.
Only ever interpolated into a comment string; no verified property inspects
its contents, so the JSON layout is abbreviated (single-line). -/
def ErratumBuild.model_dump_json (b : ErratumBuild) : String :=
  "\x7b\"nvr\": \"" ++ b.nvr ++ "\", \"package_file_list\": " ++
    toString (repr b.package_file_list) ++ "\x7d"

/-- Embeds `compare_file_lists` (erratum_handler.py lines 88-112). -/
def compare_file_lists (current_build previous_build : ErratumBuild)
    (previous_erratum_id : Nat) : Bool × String :=
  let is_matched := fileListEq current_build.package_file_list previous_build.package_file_list
  let comment :=
    "jotnar-product-listings-checked(" ++ current_build.nvr ++ ")\n\n" ++
    "Compared the file lists for " ++ current_build.nvr ++ " to the file lists for\n" ++
    previous_build.nvr ++ " in https://errata.engineering.redhat.com/advisory/" ++
    toString previous_erratum_id ++ " -\n" ++
    (if is_matched then
      "the same subpackages are shipped to each variant. Proceeding with the errata workflow."
    else
      "differences were found.\n\n" ++
      "Old file list:\n" ++ previous_build.model_dump_json ++ "\n\n" ++
      "New file list:\n" ++ current_build.model_dump_json ++ "\n\n" ++
      "Flagging for human attention.")
  (is_matched, comment)

/-! ## ErratumHandler: src/supervisor/erratum_handler.py

All external reads the handler performs during one dispatch are collected in
`ErratumEnv`; each field is the value the corresponding collaborator call
would return during this dispatch. -/

/-- Embeds `str(JotnarTag)` for `_needs_attention_tag(erratum_id)`:
`"::: JOTNAR needs_attention E: <id> :::"`. -/
def needsAttentionTagStr (erratum_id : Nat) : String :=
  "::: JOTNAR needs_attention E: " ++ toString erratum_id ++ " :::"

/-- External state read by `ErratumHandler` during one dispatch. -/
structure ErratumEnv where
  /-- Embeds `get_erratum_transition_rules(erratum_id)` - fetched fresh at the top of
  `try_to_advance_erratum`, never cached across dispatches. -/
  rule_set : TransitionRuleSet
  /-- Embeds `erratum_get_latest_stage_push_details(erratum_id)`. -/
  push_details : ErratumPushDetails
  /-- Embeds `get_erratum_build_map(erratum_id).root` (insertion-ordered). -/
  build_map : List (String × ErratumBuild)
  /-- Embeds `erratum_has_magic_string_in_comments(erratum_id, s)`. -/
  has_magic_string : String → Bool
  /-- Embeds `get_previous_erratum(erratum_id, package)` - the id component unpacked
  by the handler, `none` for a falsy result. -/
  prev_erratum_id : String → Option Nat
  /-- Embeds `get_erratum_build_map(prev_erratum_id).root` for previous errata. -/
  build_map_of : Nat → List (String × ErratumBuild)
  /-- Embeds `datetime.now(tz=timezone.utc)` in seconds. -/
  now : Int
  /-- Embeds `erratum_needs_attention(erratum_id)`. -/
  needs_attention : Bool
  /-- Embeds `get_issue_by_jotnar_tag("RHELMISC", tag)` - the key of the existing
  needs-attention issue, if any. -/
  issue_for_tag : Option String
  /-- Embeds `erratum_get_issues(erratum)` - fresh JIRA state of the linked issues. -/
  related_issues : List FullIssue

/-- Embeds `all_issues_are_release_pending` (erratum_handler.py lines 65-66). -/
def all_issues_are_release_pending (issues : List FullIssue) : Bool :=
  issues.all (fun issue => issue.status == IssueStatus.RELEASE_PENDING)

/-- Embeds `jotnar_owns_all_issues` (erratum_handler.py lines 84-85). -/
def jotnar_owns_all_issues (issues : List FullIssue) : Bool :=
  issues.all (fun issue => issue.assignee_email == some JIRA_JOTNAR_BOT_EMAIL)

/-- Embeds `ErratumHandler.resolve_flag_attention` (erratum_handler.py lines
128-154): reuse the existing needs-attention issue or create one, then stop
processing permanently. -/
def erratumFlagAttention (env : ErratumEnv) (erratum : Erratum) (why : String) :
    HandlerStep :=
  let tag := needsAttentionTagStr erratum.id
  let effects :=
    match env.issue_for_tag with
    | some issueKey => [Effect.addIssueLabel issueKey "jotnar_needs_attention" why]
    | none =>
        [Effect.createIssue "RHELMISC"
          (erratum.full_advisory ++ " (" ++ erratum.synopsis ++ ") needs attention")
          ("Erratum: " ++ erratum.url ++ "\n\n" ++ why)
          tag
          ["jotnar_needs_attention"]
          ["jotnar-package-automation"]]
  (effects, { status := why, reschedule_in := -1 })

/-- Embeds `ErratumHandler.resolve_set_status` (erratum_handler.py lines 156-164). -/
def erratumSetStatus (erratum : Erratum) (status : ErrataStatus) (why : String) :
    HandlerStep :=
  let reschedule_delay : Int :=
    if status = ErrataStatus.NEW_FILES ∨ status = ErrataStatus.QE then 0 else -1
  ([Effect.erratumChangeState erratum.id status],
    { status := why, reschedule_in := reschedule_delay })

/-- Embeds `ErratumHandler.resolve_wait_for_cat_tests` (erratum_handler.py lines
166-197). -/
def resolve_wait_for_cat_tests (env : ErratumEnv) (erratum : Erratum)
    (new_status : ErrataStatus) : HandlerStep :=
  let push_details := env.push_details
  if push_details.status ≠ some ErratumPushStatus.COMPLETE then
    resolve_wait ("Stage push status is " ++ optPushStatusStr push_details.status ++
      " for erratum " ++ toString erratum.id ++
      ", waiting for push to complete before moving to " ++ new_status.str)
  else
    match push_details.updated_at with
    | none =>
        erratumFlagAttention env erratum
          "Cannot determine stage push completion time (no log timestamps available)."
    | some updated_at =>
        if env.now - updated_at > POST_PUSH_TESTING_TIMEOUT then
          erratumFlagAttention env erratum
            ("CAT tests didn't complete successfully after " ++ POST_PUSH_TESTING_TIMEOUT_STR)
        else
          resolve_wait ("Stage push completed for erratum " ++ toString erratum.id ++
            ", waiting for CAT tests to complete before moving to " ++ new_status.str)

/-- The `for package, cur_build in cur_build_map.root.items()` loop of
`try_to_advance_erratum` (erratum_handler.py lines 210-242): returns the
comments posted and the accumulated `mismatch_packages`; a missing package in
a previous erratum's build map is Python's `KeyError`, embedded as
`Except.error`. -/
def relPrepFileListLoop (env : ErratumEnv) (erratum : Erratum) :
    Except String (List Effect × List String) :=
  env.build_map.foldlM (fun acc pkgBuild => do
    let (effects, mismatch_packages) := acc
    let package := pkgBuild.1
    let cur_build := pkgBuild.2
    let nvr := cur_build.nvr
    if env.has_magic_string ("jotnar-product-listings-checked(" ++ nvr ++ ")") then
      pure (effects, mismatch_packages)
    else
      match env.prev_erratum_id package with
      | some prev_id =>
          match (env.build_map_of prev_id).find? (fun kv => kv.1 == package) with
          | none => throw ("KeyError: " ++ squote ++ package ++ squote)
          | some kv =>
              let prev_build := kv.2
              let mc := compare_file_lists cur_build prev_build prev_id
              let mismatch_packages :=
                if mc.1 then mismatch_packages else mismatch_packages ++ [package]
              pure (effects ++ [Effect.erratumAddComment erratum.id mc.2], mismatch_packages)
      | none =>
          pure (effects ++ [Effect.erratumAddComment erratum.id
              ("jotnar-product-listings-checked(" ++ nvr ++ ")\n\n" ++
               "No previous erratum for this package - no need to check package file list change.")],
            mismatch_packages))
    ([], [])

/-- Embeds `ErratumHandler.try_to_advance_erratum` (erratum_handler.py lines
199-301).  The `TransitionRuleSet` is fetched fresh from the environment at
the top; a Python `KeyError` in the REL_PREP file-list check surfaces as
`Except.error`. -/
def try_to_advance_erratum (env : ErratumEnv) (erratum : Erratum)
    (new_status : ErrataStatus) : Except String HandlerStep := do
  let rule_set := env.rule_set
  if rule_set.to_status ≠ new_status then
    return erratumFlagAttention env erratum
      ("Next state is " ++ rule_set.to_status.str ++ " instead of " ++ new_status.str)
  if rule_set.all_ok then
    let preEffects ←
      if new_status = ErrataStatus.REL_PREP then do
        let (effects, mismatch_packages) ← relPrepFileListLoop env erratum
        if mismatch_packages ≠ [] then
          return (effects ++
            (erratumFlagAttention env erratum
              ("The package file lists of this build don't match all of their previous builds - mismatch packages: " ++
                pyStrListRepr mismatch_packages ++ ".\n" ++
                "See erratum comments for details.")).1,
            (erratumFlagAttention env erratum
              ("The package file lists of this build don't match all of their previous builds - mismatch packages: " ++
                pyStrListRepr mismatch_packages ++ ".\n" ++
                "See erratum comments for details.")).2)
        pure effects
      else
        pure []
    let step := erratumSetStatus erratum new_status
      ("Moving to " ++ new_status.str ++ ", since all rules are OK")
    return (preEffects ++ step.1, step.2)
  else
    let blocking_outcomes := (rule_set.rules.filter
      (fun rule => rule.outcome != TransitionRuleOutcome.OK)).map TransitionRule.name
    if blocking_outcomes.contains "Stagepush" then
      let existing := env.push_details.status
      if existing = none ∨ existing = some ErratumPushStatus.COMPLETE then
        let waitStep := resolve_wait ("Stage-pushing erratum " ++ toString erratum.id ++
          " before moving to " ++ new_status.str)
        return (Effect.erratumPushToStage erratum.id :: waitStep.1, waitStep.2)
      else if existing = some ErratumPushStatus.FAILED then
        return erratumFlagAttention env erratum
          ("Stage-push previously FAILED for erratum " ++ toString erratum.id ++
            ", needs manual intervention before moving to " ++ new_status.str)
      else
        return resolve_wait ("Stage-push already in progress (" ++ optPushStatusStr existing ++
          ") for erratum " ++ toString erratum.id ++
          ", waiting for completion before moving to " ++ new_status.str)
    else if blocking_outcomes.contains "Cat" then
      return resolve_wait_for_cat_tests env erratum new_status
    else if blocking_outcomes.contains "Securityalert" then
      let waitStep := resolve_wait ("Refreshing security alerts for erratum " ++
        toString erratum.id ++ " before moving to " ++ new_status.str)
      return (Effect.erratumRefreshSecurityAlerts erratum.id :: waitStep.1, waitStep.2)
    else
      let blocking_rules_details := String.intercalate "\n"
        ((rule_set.rules.filter (fun r => r.outcome == TransitionRuleOutcome.BLOCK)).map
          (fun r => r.name ++ ": " ++ r.details))
      return erratumFlagAttention env erratum
        ("Transition to " ++ new_status.str ++ " is blocked by:\n" ++ blocking_rules_details)

/-- Embeds `ErratumHandler.run` (erratum_handler.py lines 303-348). -/
def erratumHandlerRun (env : ErratumEnv) (erratum : Erratum)
    (ignore_needs_attention : Bool) : Except String HandlerStep := do
  if !ignore_needs_attention && env.needs_attention then
    return resolve_remove_work_item "Erratum already flagged for human attention"
  let related_issues := env.related_issues
  if erratum.assigned_to_email ≠ ERRATA_JOTNAR_BOT_EMAIL ∨
      erratum.package_owner_email ≠ ERRATA_JOTNAR_BOT_EMAIL then
    if jotnar_owns_all_issues related_issues then
      return ([Effect.erratumChangeOwnership erratum.id ERRATA_JOTNAR_BOT_EMAIL],
        { status := "Changed ownership of erratum " ++ toString erratum.id ++
            " to Jotnar bot, re-processing"
          reschedule_in := 0 })
    else
      return erratumFlagAttention env erratum
        ("Erratum has issues not owned by Project Jötnar. Please coordinate with QA Contact for these " ++
         "issues to move those issues to Release Pending or change the Assigned Team for the issue to " ++
         "rhel-jotnar. No further action will be taken on the erratum until jotnar_needs_attention is " ++
         "cleared on this issue.")
  match erratum.status with
  | ErrataStatus.NEW_FILES => try_to_advance_erratum env erratum ErrataStatus.QE
  | ErrataStatus.QE =>
      if !all_issues_are_release_pending related_issues then
        return resolve_remove_work_item "Not all issues are release pending"
      try_to_advance_erratum env erratum ErrataStatus.REL_PREP
  | status => return resolve_remove_work_item ("status is " ++ status.str)

/-! ## Baseline reproduction: src/supervisor/baseline_tests.py

`BaselineTests` persists its pairing table as a JIRA comment and reloads it by
parsing the comment text (`load_from_issue`).  The two regular expressions of
the source are embedded with Python `re` semantics:

* `re.match(".*failed tests with previous build (.*):", line)` - the greedy
  leading `.*` selects the rightmost occurrence of the literal that is still
  followed by a colon, and the greedy group runs to the last colon.
* `re.sub(r"\x5b([^|]+)\|([^\x5d]+)\x5d", r"\1", line)` - leftmost,
  non-overlapping link removal; each match is an opening bracket, a non-empty
  run without a pipe, a pipe, a non-empty run without a closing bracket, and a
  closing bracket. -/

/-- A `(original, reproduction)` pairing (`BaselineComparison`): the
Testing Farm request ids; the lazily-fetched request objects of
`RequestWrapper` are recovered through the environment. -/
structure BaselineComparison where
  failed : String
  baseline : String
deriving DecidableEq, Repr

/-- Embeds `BaselineTests` (baseline_tests.py). -/
structure BaselineTests where
  failure_comment : String
  comparisons : List BaselineComparison
  previous_build_nvr : String
  comment_id : Option String := none
deriving DecidableEq, Repr

/-- Python `str.split` with a one-character separator (the source only splits
on `"|"` and on line boundaries), structurally recursive so that concrete
tables evaluate inside the kernel. -/
def splitOnChar (c : Char) : List Char → List (List Char)
  | [] => [[]]
  | x :: xs =>
      let r := splitOnChar c xs
      if x == c then [] :: r
      else
        match r with
        | [] => [[x]]
        | y :: ys => (x :: y) :: ys

def splitString (c : Char) (s : String) : List String :=
  (splitOnChar c s.data).map String.mk

/-- Python `str.strip()`: remove leading and trailing whitespace. -/
def pyStrip (s : String) : String :=
  String.mk (((s.data.dropWhile Char.isWhitespace).reverse.dropWhile
    Char.isWhitespace).reverse)

/-- Python `str.startswith(lit)`. -/
def startsWithLit (s lit : String) : Bool :=
  lit.data.isPrefixOf s.data

/-- Python `str.splitlines()` restricted to `"\n"` separators (the only line
boundary occurring in the verified strings): no entry for a trailing newline. -/
def splitLines (s : String) : List String :=
  if s = "" then []
  else
    let parts := splitString (Char.ofNat 10) s
    if parts.getLast? = some "" then parts.dropLast else parts

/-- Positions where `needle` occurs in `hay`. -/
def occPositions (hay needle : List Char) : List Nat :=
  (List.range (hay.length + 1)).filter (fun i => needle.isPrefixOf (hay.drop i))

/-- Positions of `c` in `hay`. -/
def charPositions (hay : List Char) (c : Char) : List Nat :=
  (List.range hay.length).filter (fun i => hay.getD i ' ' == c)

/-- Embeds `re.match(".*failed tests with previous build (.*):", line)` and its
`group(1)`: greedy `.*` picks the rightmost literal occurrence still followed
by a colon; the greedy group extends to the last colon. -/
def matchPrevBuild (line : String) : Option String :=
  let hay := line.data
  let needle := "failed tests with previous build ".data
  let colons := charPositions hay (Char.ofNat 58)
  let feasible := (occPositions hay needle).filter
    (fun i => colons.any (fun j => j ≥ i + needle.length))
  match feasible.max? with
  | none => none
  | some i =>
      let after := i + needle.length
      match (colons.filter (fun j => j ≥ after)).max? with
      | none => none
      | some j => some (String.mk ((hay.drop after).take (j - after)))

/-- First occurrence of `c`: `some (before, after)` with `c` removed. -/
def splitAtChar : Char → List Char → Option (List Char × List Char)
  | _, [] => none
  | c, x :: xs =>
      if x == c then some ([], xs)
      else (splitAtChar c xs).map (fun p => (x :: p.1, p.2))

/-- Attempt a link match immediately after an opening bracket: a non-empty
pipe-free group, a pipe, a non-empty bracket-free group, a closing bracket.
Returns the displayed group and the remainder after the closing bracket. -/
def tryLink (s : List Char) : Option (List Char × List Char) := do
  let (g1, rest1) ← splitAtChar '|' s
  if g1 = [] then none
  else do
    let (g2, rest2) ← splitAtChar ']' rest1
    if g2 = [] then none
    else pure (g1, rest2)

/-- Leftmost non-overlapping substitution; fuel is the character count (each
step consumes at least one character). -/
def stripLinksAux : Nat → List Char → List Char
  | 0, s => s
  | _ + 1, [] => []
  | fuel + 1, c :: rest =>
      if c == '[' then
        match tryLink rest with
        | some (g1, rem) => g1 ++ stripLinksAux fuel rem
        | none => c :: stripLinksAux fuel rest
      else
        c :: stripLinksAux fuel rest

/-- Embeds `re.sub(r"...", r"\1", line)` - remove JIRA-style `\x5btext|url\x5d` links,
keeping the text. -/
def stripLinks (line : String) : String :=
  String.mk (stripLinksAux line.data.length line.data)

/-- Phase 1 of `load_from_issue` (baseline_tests.py lines 235-246): scan for
the header line, accumulating the leading lines; `none` when no line matches
(the `for ... else: continue`). -/
def findHeaderLine (leading : List String) :
    List String → Option (List String × String × List String)
  | [] => none
  | line :: rest =>
      match matchPrevBuild line with
      | some nvr => some (leading, nvr, rest)
      | none => findHeaderLine (leading ++ [line]) rest

/-- Phase 2 (lines 248-252): skip to the table header row (a line starting
with `"||"`); `none` when there is none. -/
def skipToTable : List String → Option (List String)
  | [] => none
  | line :: rest => if startsWithLit line "||" then some rest else skipToTable rest

/-- Phase 3 (lines 254-269): consume table rows while lines start with `"|"`;
after removing links, split on `"|"` and keep rows with at least 4 cells -
shorter rows are skipped without error. -/
def parseRows : List String → List BaselineComparison
  | [] => []
  | line :: rest =>
      if !startsWithLit line "|" then []
      else
        let cleaned := stripLinks line
        let parts := splitString '|' cleaned
        if parts.length ≥ 4 then
          { failed := pyStrip (parts.getD 2 ""), baseline := pyStrip (parts.getD 3 "") } ::
            parseRows rest
        else
          parseRows rest

/-- One comment body through all three phases of `load_from_issue`. -/
def parseBaselineComment (comment : JiraComment) : Option BaselineTests :=
  let lines := splitLines comment.body
  match findHeaderLine [] lines with
  | none => none
  | some (leading_lines, previous_build_nvr, rest) =>
      match skipToTable rest with
      | none => none
      | some rows =>
          some { failure_comment := pyStrip (String.intercalate "\n" leading_lines)
                 comparisons := parseRows rows
                 previous_build_nvr := previous_build_nvr
                 comment_id := some comment.id }

/-- Embeds `BaselineTests.load_from_issue` (baseline_tests.py lines 229-277):
the newest comment (comments iterated in reverse) from which a pairing table
can be parsed, else `none`. -/
def load_from_issue (issue : FullIssue) : Option BaselineTests :=
  issue.comments.reverse.findSome? parseBaselineComment

/-! ## IssueHandler: src/supervisor/issue_handler.py -/

/-- Embeds `analyze_issue` output (`OutputSchema`, testing_analyst.py). -/
structure TestingAnalysis where
  state : TestingState
  comment : Option String := none
  failed_test_ids : Option (List String) := none
deriving DecidableEq, Repr

def TestingState.str : TestingState → String
  | .NOT_RUNNING => "tests-not-running"
  | .PENDING => "tests-pending"
  | .RUNNING => "tests-running"
  | .ERROR => "tests-error"
  | .FAILED => "tests-failed"
  | .PASSED => "tests-passed"
  | .WAIVED => "tests-waived"

/-- Embeds `GITLAB_GROUPS` (constants.py). -/
def GITLAB_GROUPS : List String := ["rhel/rpms", "centos-stream/rpms"]

/-- Embeds `datetime.min` with UTC timezone, in seconds relative to the epoch. -/
def DATETIME_MIN_UTC : Int := -62135596800

/-- External state read by `IssueHandler` (and the baseline workflow) during
one dispatch. -/
structure IssueEnv where
  /-- Embeds `testing_farm_get_request(id)` / `RequestWrapper.request`. -/
  getRequest : String → TestingFarmRequest
  /-- The parsed suites of the XUnit document at a result-artifact URL (the
  download and XML parse inside `compare_xunit_files`). -/
  xunitDocs : String → List XUnitTestSuite
  /-- Embeds `analyze_issue(issue, related_erratum, after_baseline)`; the argument is
  the `after_baseline` flag. -/
  analyze : Bool → TestingAnalysis
  /-- First merged MR url returned by `search_gitlab_project_mrs(project, key,
  state=MERGED)` for a project path, if any. -/
  merged_mr : String → Option String
  /-- Embeds `merged_at` of each merged MR found across `GITLAB_GROUPS`
  (`get_latest_merged_timestamp`). -/
  merged_mr_timestamps : List (Option Int)
  /-- Embeds `datetime.now(tz=timezone.utc)` in seconds. -/
  now : Int
  /-- Embeds `get_previous_erratum(related_erratum.id, components\x5b0\x5d)` - its id. -/
  previous_erratum : Option Nat
  /-- Embeds `get_erratum_build_nvr(previous_erratum.id, components\x5b0\x5d)`. -/
  erratum_build_nvr : Nat → Option String
  /-- Embeds `testing_farm_reproduce_request_with_build(request, build_nvr)`; an
  exception is `Except.error`. -/
  reproduce : String → String → Except String TestingFarmRequest

/-- Embeds `BaselineTests.settled` (baseline_tests.py lines 82-91). -/
def settled (env : IssueEnv) (bt : BaselineTests) : Bool :=
  bt.comparisons.all fun comparison =>
    let st := (env.getRequest comparison.baseline).state
    st == TestingFarmRequestState.COMPLETE || st == TestingFarmRequestState.ERROR ||
      st == TestingFarmRequestState.CANCELED

/-- Embeds `BaselineTests.complete` (baseline_tests.py lines 93-97). -/
def complete (env : IssueEnv) (bt : BaselineTests) : Bool :=
  bt.comparisons.all fun comparison =>
    (env.getRequest comparison.baseline).state == TestingFarmRequestState.COMPLETE

/-- Embeds `RequestWrapper.link`: `"\x5b<id>|<url>\x5d"`. -/
def requestLink (id : String) : String :=
  "[" ++ id ++ "|" ++ TESTING_FARM_URL ++ "/requests/" ++ id ++ "]"

/-- Embeds `BaselineComparison.attachment_name`. -/
def attachment_name (comparison : BaselineComparison) : String :=
  "comparison-" ++ comparison.baseline ++ "--" ++ comparison.failed ++ ".toml"

/-- Embeds `BaselineComparison.attachment_link`. -/
def attachment_link (comparison : BaselineComparison) : String :=
  "[compare|^" ++ attachment_name comparison ++ "]"

/-- One row of the pairing table (`BaselineTests.format_issue_comment`,
lines 118-128). -/
def formatComparisonRow (env : IssueEnv) (include_attachments : Bool)
    (comparison : BaselineComparison) : String :=
  let failed_request := env.getRequest comparison.failed
  let baseline_request := env.getRequest comparison.baseline
  "|" ++ String.intercalate ", " failed_request.arches ++
  "|" ++ requestLink comparison.failed ++
  "|" ++ requestLink comparison.baseline ++
  "|" ++ (if baseline_request.state = TestingFarmRequestState.COMPLETE then
            baseline_request.result.str
          else
            baseline_request.state.str) ++
  (if include_attachments then "|" ++ attachment_link comparison else "") ++
  "|"

/-- Embeds `BaselineTests.format_issue_comment` (baseline_tests.py lines
99-130). -/
def format_issue_comment (env : IssueEnv) (bt : BaselineTests)
    (include_attachments : Bool) : String :=
  let message := if complete env bt then "Reproduced"
    else if settled env bt then "Failed to reproduce"
    else "Reproducing"
  let state_header := if settled env bt then "Result" else "State"
  bt.failure_comment ++ "\n\n" ++
  message ++ " failed tests with previous build " ++ bt.previous_build_nvr ++ ":\n" ++
  "||Architecture||Original Request||Request With Old Build||" ++ state_header ++
  (if include_attachments then "||Comparison" else "") ++ "||\n" ++
  String.intercalate "\n" (bt.comparisons.map (formatComparisonRow env include_attachments))

/-- The `create_not_generated_comparison` closure inside
`BaselineTests.create_attachments`. -/
def create_not_generated_comparison (metadata : List (String × String))
    (reason : String) : XUnitComparison :=
  { status := { generated := false, reason := some reason }, metadata := metadata }

/-- The metadata dict built per pairing in `create_attachments`
(baseline_tests.py lines 138-152), in insertion order. -/
def attachmentMetadata (baseline_request failed_request : TestingFarmRequest) :
    List (String × String) :=
  [("build_a", baseline_request.build_nvr),
   ("testing_farm_request_id_a", baseline_request.id)] ++
  (match baseline_request.error_reason with
   | some r => [("error_reason_a", r)]
   | none => []) ++
  [("build_b", failed_request.build_nvr),
   ("testing_farm_request_id_b", failed_request.id)] ++
  (match failed_request.error_reason with
   | some r => [("error_reason_b", r)]
   | none => [])

/-- Embeds `BaselineTests.create_attachments` (baseline_tests.py lines
132-189): one TOML attachment per pairing; pairings with a missing result
artifact get a non-generated comparison; a `ValueError` raised by
`compare_xunit_files` propagates. -/
def createAttachments (env : IssueEnv) (issue_key : String) (bt : BaselineTests) :
    Except String (List Effect) := do
  let attachments ← bt.comparisons.foldlM (fun acc comparison => do
    let failed_request := env.getRequest comparison.failed
    let baseline_request := env.getRequest comparison.baseline
    let metadata := attachmentMetadata baseline_request failed_request
    let comparison_result ←
      match baseline_request.result_xunit_url, failed_request.result_xunit_url with
      | none, none =>
          pure (create_not_generated_comparison metadata "XUnit results missing for runs A and B")
      | none, some _ =>
          pure (create_not_generated_comparison metadata "XUnit results missing for run A")
      | some _, none =>
          pure (create_not_generated_comparison metadata "XUnit results missing for run B")
      | some url_a, some url_b =>
          compare_xunit_files (env.xunitDocs url_a) (env.xunitDocs url_b) metadata
    pure (acc ++ [(attachment_name comparison, to_toml comparison_result)]))
    []
  return [Effect.addIssueAttachments issue_key attachments]

/-- Embeds `format_attention_message` (jira_utils.py lines 658-666). -/
def format_attention_message (why : String) : String :=
  "\x7bpanel:title=Project Jötnar: ATTENTION NEEDED|" ++
  "borderStyle=solid|borderColor=#CC0000|titleBGColor=#FFF5F5|bgColor=#FFFEF0\x7d\n" ++
  why ++ "\n\n" ++
  "Please resolve this and remove the \x7b\x7bjotnar_needs_attention\x7d\x7d flag.\n" ++
  "\x7bpanel\x7d"

/-- Embeds `IssueHandler.resolve_flag_attention` (issue_handler.py lines 61-75). -/
def issueFlagAttention (issue : FullIssue) (why : String)
    (details_comment : Option String := none) : HandlerStep :=
  let full_comment :=
    match details_comment with
    | some details => format_attention_message why ++ "\n\n" ++ details
    | none => format_attention_message why
  ([Effect.addIssueLabel issue.key "jotnar_needs_attention" full_comment],
    { status := why, reschedule_in := -1 })

/-- Embeds `IssueHandler.resolve_set_status` (issue_handler.py lines 50-59). -/
def issueSetStatus (issue : FullIssue) (status : IssueStatus) (why : String) :
    HandlerStep :=
  let comment := "*Changing status from " ++ issue.status.str ++ " => " ++ status.str ++
    "*\n\n" ++ why
  let reschedule_delay : Int :=
    if status = IssueStatus.RELEASE_PENDING ∨ status = IssueStatus.CLOSED then -1 else 0
  ([Effect.changeIssueStatus issue.key status comment],
    { status := why, reschedule_in := reschedule_delay })

/-- Embeds `IssueHandler.resolve_check_reproduction` (issue_handler.py lines
130-164). -/
def resolve_check_reproduction (env : IssueEnv) (issue : FullIssue) :
    Except String HandlerStep := do
  match load_from_issue issue with
  | none =>
      return issueFlagAttention issue
        "Issue has jotnar_reproducing_tests label but cannot parse baseline tests from comments"
  | some baseline_tests =>
      if !settled env baseline_tests then
        return resolve_wait "Waiting for baseline tests to complete"
      else do
        let attachEffects ← createAttachments env issue.key baseline_tests
        let issue_comment := format_issue_comment env baseline_tests true
        -- `comment_id` is always set by `load_from_issue` (the source asserts this)
        let comment_id := baseline_tests.comment_id.getD ""
        return (attachEffects ++
          [Effect.removeIssueLabel issue.key "jotnar_reproducing_tests",
           Effect.updateIssueComment issue.key comment_id issue_comment],
          { status := "Baseline tests are complete, will analyze results"
            reschedule_in := 0 })

/-- Embeds `BaselineTests.create` (baseline_tests.py lines 191-227): submit a
reproduction run per failed request; a submission failure raises
`RuntimeError` (`Except.error`; the interpolated request repr is abbreviated
to its id). -/
def baselineTestsCreate (env : IssueEnv) (failure_comment : String)
    (failed_request_ids : List String) (previous_build_nvr : String) :
    Except String (List Effect × BaselineTests) := do
  let acc ← failed_request_ids.foldlM (fun acc fid => do
    let (effects, tests) := acc
    let failed_request := env.getRequest fid
    match env.reproduce failed_request.id previous_build_nvr with
    | .ok baseline_request =>
        pure (effects ++ [Effect.testingFarmSubmit failed_request.id previous_build_nvr],
          tests ++ [BaselineComparison.mk failed_request.id baseline_request.id])
    | .error e =>
        throw ("Failed to start reproduction of test run " ++ failed_request.id ++
          " with previous build " ++ previous_build_nvr ++ ": " ++ e))
    (([], []) : List Effect × List BaselineComparison)
  return (acc.1,
    { failure_comment := failure_comment
      comparisons := acc.2
      previous_build_nvr := previous_build_nvr })

/-- Embeds `IssueHandler.resolve_start_reproduction` (issue_handler.py lines
77-128). -/
def resolve_start_reproduction (env : IssueEnv) (issue : FullIssue)
    (comment : String) (failed_test_ids : List String) : HandlerStep :=
  let resolve_on_error := fun (error_message : String) =>
    issueFlagAttention issue ("Tests failed - see details below. " ++ error_message)
      (some comment)
  match env.previous_erratum with
  | none =>
      resolve_on_error
        "Cannot start reproduction with previous build - no previous erratum found to get build from."
  | some previous_erratum_id =>
      match env.erratum_build_nvr previous_erratum_id with
      | none =>
          resolve_on_error
            "Cannot start reproduction with previous build - error finding previous build NVR."
      | some previous_build_nvr =>
          match baselineTestsCreate env comment failed_test_ids previous_build_nvr with
          | .error e => resolve_on_error e
          | .ok (effects, baseline_tests) =>
              let issue_comment := format_issue_comment env baseline_tests false
              let waitStep := resolve_wait "Waiting to reproduce tests with previous build"
              (effects ++
                [Effect.addIssueLabel issue.key "jotnar_reproducing_tests" issue_comment],
                waitStep.2)

/-- Embeds `IssueHandler.label_merge_if_needed` (issue_handler.py lines
166-204): returns the (possibly label-augmented) issue and the effects. -/
def label_merge_if_needed (env : IssueEnv) (issue : FullIssue) :
    FullIssue × List Effect :=
  let component := issue.components.getD 0 ""
  if (issue.labels.contains "jotnar_backported" || issue.labels.contains "jotnar_rebased") &&
      !issue.labels.contains "jotnar_merged" then
    match (GITLAB_GROUPS.map (fun group => "redhat/" ++ group ++ "/" ++ component)).findSome?
        env.merged_mr with
    | some mr_url =>
        ({ issue with labels := issue.labels ++ ["jotnar_merged"] },
          [Effect.addIssueLabel issue.key "jotnar_merged"
            ("A [merge request| " ++ mr_url ++
              "]. resolving this issue has been merged; waiting for errata creation and final testing.")])
    | none => (issue, [])
  else
    (issue, [])

/-- Embeds `IssueHandler.get_latest_merged_timestamp` (issue_handler.py lines
206-223). -/
def get_latest_merged_timestamp (env : IssueEnv) : Int :=
  (env.merged_mr_timestamps.map (fun t => t.getD DATETIME_MIN_UTC)).foldl max DATETIME_MIN_UTC

/-- Embeds `IssueHandler.run_before_errata_created` (issue_handler.py lines
225-264). -/
def run_before_errata_created (env : IssueEnv) (issue : FullIssue) : HandlerStep :=
  if !(issue.labels.any fun label =>
      label == "jotnar_backported" || label == "jotnar_rebased" || label == "jotnar_merged") then
    resolve_remove_work_item ("Issue without target labels: " ++ pyStrListRepr issue.labels)
  else
    let (issue, mergeEffects) :=
      if !issue.labels.contains "jotnar_merged" then label_merge_if_needed env issue
      else (issue, [])
    if !issue.labels.contains "jotnar_merged" then
      let w := resolve_wait "No merged MR found, reschedule it for 3 hours" (60 * 60 * 3)
      (mergeEffects ++ w.1, w.2)
    else
      let latest_merged_timestamp := get_latest_merged_timestamp env
      let time_diff := (env.now - latest_merged_timestamp).natAbs
      if time_diff < 60 * 60 * 24 then
        let w := resolve_wait "Wait for the associated erratum to be created" (60 * 60)
        (mergeEffects ++ w.1, w.2)
      else
        let f := issueFlagAttention issue
          ("A merge request was merged for this issue more than 24 hours ago but no errata " ++
           "was created. Please investigate and look for gating failures or other reasons that " ++
           "might have blocked errata creation.")
        (mergeEffects ++ f.1, f.2)

/-- Embeds `IssueHandler.run_after_errata_created` (issue_handler.py lines
266-350).  The `related_erratum` fetch and the analyst call are environment
reads; unknown testing states and unknown issue statuses raise `ValueError`
(`Except.error`), exactly as the source's `case _` arms do. -/
def run_after_errata_created (env : IssueEnv) (issue : FullIssue) :
    Except String HandlerStep := do
  if issue.fixed_in_build = none then
    return issueFlagAttention issue "Issue has errata_link but no fixed_in_build"
  if issue.preliminary_testing ≠ some PreliminaryTesting.PASS then
    return issueFlagAttention issue
      ("Issue does not have Preliminary Testing set to Pass - this should have " ++
       "happened before the gitlab pull request was merged")
  if issue.test_coverage = none ∨ issue.test_coverage = some [] then
    return issueFlagAttention issue
      ("Issue does not have Test Coverage set - this should have " ++
       "happened before the gitlab pull request was merged")
  let (issue, mergeEffects) := label_merge_if_needed env issue
  match issue.status with
  | IssueStatus.NEW | IssueStatus.PLANNING | IssueStatus.IN_PROGRESS =>
      let step := issueSetStatus issue IssueStatus.INTEGRATION
        "Preliminary testing has passed, moving to Integration"
      return (mergeEffects ++ step.1, step.2)
  | IssueStatus.INTEGRATION => do
      if issue.labels.contains "jotnar_reproducing_tests" then
        let step ← resolve_check_reproduction env issue
        return (mergeEffects ++ step.1, step.2)
      let baseline_tests := load_from_issue issue
      let testing_analysis := env.analyze baseline_tests.isSome
      match testing_analysis.state with
      | TestingState.NOT_RUNNING =>
          let step := issueFlagAttention issue "Tests aren't running - see details below"
            testing_analysis.comment
          return (mergeEffects ++ step.1, step.2)
      | TestingState.PENDING =>
          let step := resolve_wait "Tests are pending"
          return (mergeEffects ++ step.1, step.2)
      | TestingState.RUNNING =>
          let step := resolve_wait "Tests are running"
          return (mergeEffects ++ step.1, step.2)
      | TestingState.FAILED =>
          if baseline_tests = none ∧
              (testing_analysis.failed_test_ids.getD []) ≠ [] then
            let step := resolve_start_reproduction env issue
              (testing_analysis.comment.getD "")
              (testing_analysis.failed_test_ids.getD [])
            return (mergeEffects ++ step.1, step.2)
          else
            let step := issueFlagAttention issue "Tests failed - see details below"
              testing_analysis.comment
            return (mergeEffects ++ step.1, step.2)
      | TestingState.PASSED =>
          let step := issueSetStatus issue IssueStatus.RELEASE_PENDING
            (testing_analysis.comment.getD "Final testing has passed.")
          return (mergeEffects ++ step.1, step.2)
      | TestingState.WAIVED =>
          let step := issueSetStatus issue IssueStatus.RELEASE_PENDING
            (testing_analysis.comment.getD
              "Final testing has been waived, moving to Release Pending.")
          return (mergeEffects ++ step.1, step.2)
      | state => throw ("Unknown testing state: " ++ state.str)
  | IssueStatus.RELEASE_PENDING | IssueStatus.CLOSED =>
      return (mergeEffects ++ (resolve_remove_work_item
        ("Issue status is " ++ issue.status.str)).1,
        (resolve_remove_work_item ("Issue status is " ++ issue.status.str)).2)
  | status => throw ("Unknown issue status: " ++ status.str)

/-- Embeds `IssueHandler.run` (issue_handler.py lines 352-377). -/
def issueHandlerRun (env : IssueEnv) (issue : FullIssue)
    (ignore_needs_attention : Bool) : Except String HandlerStep := do
  if issue.labels.contains "jotnar_needs_attention" && !ignore_needs_attention then
    return resolve_remove_work_item "Issue has the jotnar_needs_attention label"
  if issue.components.length ≠ 1 then
    return issueFlagAttention issue
      ("This issue has multiple components. " ++
       "Jotnar only handles issues with single component currently.")
  match issue.errata_link with
  | none => return run_before_errata_created env issue
  | some _ => run_after_errata_created env issue

/-! ## WorkQueue

`work_queue.py` is not present under `src/` - `main.py` and `collect.py` import
`WorkQueue`, `WorkItem`, `WorkItemType` from `.work_queue` but only the callers
ship in the tree.  The queue is therefore modelled from the spec (§4.1). -/

/-- Embeds `WorkItemType` as used by main.py/collect.py. -/
inductive WorkItemType
  | PROCESS_ISSUE
  | PROCESS_ERRATUM
deriving DecidableEq, Repr

/-- A work item; identity is the whole `(kind, entity_key)` pair (spec §3). -/
structure WorkItem where
  item_type : WorkItemType
  item_data : String
deriving DecidableEq, Repr

/-- Modelled from the spec: the missing `work_queue.py`'s queue state - the
spec's "delay-scheduled, deduplicated set of pending work items", each identity
mapped to a ready-time (seconds). -/
abbrev WorkQueueState := List (WorkItem × Int)

/-- Modelled from the spec: the upsert of one item: "re-scheduling an existing
identity replaces its ready-time (does not create a duplicate)" (spec §4.1). -/
def scheduleOne (state : WorkQueueState) (item : WorkItem) (ready : Int) :
    WorkQueueState :=
  if state.any (fun entry => entry.1 == item) then
    state.map (fun entry => if entry.1 == item then (item, ready) else entry)
  else
    state ++ [(item, ready)]

/-- Modelled from the spec: `schedule_work_items(items, delay=0)` - "upserts
each item's ready-time to now+delay" (spec §4.1). -/
def schedule_work_items (state : WorkQueueState) (items : List WorkItem)
    (now delay : Int) : WorkQueueState :=
  items.foldl (fun s item => scheduleOne s item (now + delay)) state

/-- The identities present in the queue. -/
def queueIdentities (state : WorkQueueState) : List WorkItem :=
  state.map Prod.fst

/-! ## Derived quantities for the comparison theorems -/

/-- Number of union test-case names of the suite pair matched at `k` that
classify as `cat`. -/
def suiteKeyCount (test_suites_a test_suites_b : List XUnitTestSuite)
    (k : String × String) (cat : ComparisonResult) : Nat :=
  match findSuite test_suites_a k, findSuite test_suites_b k with
  | some suite_a, some suite_b =>
      (unionKeys suite_a suite_b).countP
        (fun n => decide (classify (resultOf suite_a n) (resultOf suite_b n) = cat))
  | _, _ => 0

/-- The detail entries the suite pair matched at `k` contributes to category
`cat`, in union-enumeration order. -/
def suiteKeyEntries (test_suites_a test_suites_b : List XUnitTestSuite)
    (k : String × String) (cat : ComparisonResult) : List XUnitTestCaseComparison :=
  match findSuite test_suites_a k, findSuite test_suites_b k with
  | some suite_a, some suite_b =>
      ((unionKeys suite_a suite_b).filter
        (fun n => decide (classify (resultOf suite_a n) (resultOf suite_b n) = cat))).map
        (mkComparisonEntry suite_a suite_b)
  | _, _ => []

/-- Number of distinct union test-case names of the suite pair matched at `k`. -/
def suiteKeyUnionLen (test_suites_a test_suites_b : List XUnitTestSuite)
    (k : String × String) : Nat :=
  match findSuite test_suites_a k, findSuite test_suites_b k with
  | some suite_a, some suite_b => (unionKeys suite_a suite_b).length
  | _, _ => 0

/-- The distinct (suite key, test name) pairs contributed by the suite pair
matched at `k`. -/
def suiteKeyPairs (test_suites_a test_suites_b : List XUnitTestSuite)
    (k : String × String) : List ((String × String) × String) :=
  match findSuite test_suites_a k, findSuite test_suites_b k with
  | some suite_a, some suite_b => (unionKeys suite_a suite_b).map (fun n => (k, n))
  | _, _ => []

/-- The distinct (suite key, test name) pairs over all matched suite pairs of
the two documents. -/
def unionPairs (test_suites_a test_suites_b : List XUnitTestSuite) :
    List ((String × String) × String) :=
  (suiteKeys test_suites_a).flatMap (suiteKeyPairs test_suites_a test_suites_b)

/-! ## Lemmas about the comparison engine -/

theorem get_bumpCounts (c : XUnitComparisonCounts) (cat cat2 : ComparisonResult) :
    (bumpCounts c cat).get cat2 = c.get cat2 + (if cat = cat2 then 1 else 0) := by
  cases cat <;> cases cat2 <;> simp [bumpCounts, XUnitComparisonCounts.get]

theorem sumCounts_bumpCounts (c : XUnitComparisonCounts) (cat : ComparisonResult) :
    sumCounts (bumpCounts c cat) = sumCounts c + 1 := by
  cases cat <;> simp [bumpCounts, sumCounts] <;> omega

theorem counts_appendComparison (out : XUnitComparison) (cat : ComparisonResult)
    (e : XUnitTestCaseComparison) :
    (appendComparison out cat e).total_counts = out.total_counts := by
  cases cat <;> rfl

theorem status_appendComparison (out : XUnitComparison) (cat : ComparisonResult)
    (e : XUnitTestCaseComparison) :
    (appendComparison out cat e).status = out.status := by
  cases cat <;> rfl

theorem metadata_appendComparison (out : XUnitComparison) (cat : ComparisonResult)
    (e : XUnitTestCaseComparison) :
    (appendComparison out cat e).metadata = out.metadata := by
  cases cat <;> rfl

theorem list_appendComparison (out : XUnitComparison) (cat cat2 : ComparisonResult)
    (e : XUnitTestCaseComparison) (h2 : cat2 ≠ ComparisonResult.WORKS) :
    (appendComparison out cat e).list cat2 =
      out.list cat2 ++ (if cat = cat2 then [e] else []) := by
  cases cat <;> cases cat2 <;> simp_all [appendComparison, XUnitComparison.list]

theorem list_setCounts (out : XUnitComparison) (c : XUnitComparisonCounts)
    (cat : ComparisonResult) :
    ({ out with total_counts := c } : XUnitComparison).list cat = out.list cat := by
  cases cat <;> rfl

theorem processKey_counts_get (suite_a suite_b : XUnitTestSuite) (out : XUnitComparison)
    (k : String) (cat : ComparisonResult) :
    (processKey suite_a suite_b out k).total_counts.get cat =
      out.total_counts.get cat +
        (if classify (resultOf suite_a k) (resultOf suite_b k) = cat then 1 else 0) := by
  unfold processKey
  by_cases h : classify (resultOf suite_a k) (resultOf suite_b k) = ComparisonResult.WORKS
  · simp [h, get_bumpCounts]
  · simp [if_neg h, counts_appendComparison, get_bumpCounts]

theorem processKey_sumCounts (suite_a suite_b : XUnitTestSuite) (out : XUnitComparison)
    (k : String) :
    sumCounts (processKey suite_a suite_b out k).total_counts =
      sumCounts out.total_counts + 1 := by
  unfold processKey
  by_cases h : classify (resultOf suite_a k) (resultOf suite_b k) = ComparisonResult.WORKS
  · simp [h, sumCounts_bumpCounts]
  · simp [if_neg h, counts_appendComparison, sumCounts_bumpCounts]

theorem processKey_status (suite_a suite_b : XUnitTestSuite) (out : XUnitComparison)
    (k : String) :
    (processKey suite_a suite_b out k).status = out.status := by
  unfold processKey
  by_cases h : classify (resultOf suite_a k) (resultOf suite_b k) = ComparisonResult.WORKS
  · simp [h]
  · simp [if_neg h, status_appendComparison]

theorem processKey_metadata (suite_a suite_b : XUnitTestSuite) (out : XUnitComparison)
    (k : String) :
    (processKey suite_a suite_b out k).metadata = out.metadata := by
  unfold processKey
  by_cases h : classify (resultOf suite_a k) (resultOf suite_b k) = ComparisonResult.WORKS
  · simp [h]
  · simp [if_neg h, metadata_appendComparison]

theorem processKey_list (suite_a suite_b : XUnitTestSuite) (out : XUnitComparison)
    (k : String) (cat : ComparisonResult) (hcat : cat ≠ ComparisonResult.WORKS) :
    (processKey suite_a suite_b out k).list cat =
      out.list cat ++
        (if classify (resultOf suite_a k) (resultOf suite_b k) = cat then
          [mkComparisonEntry suite_a suite_b k] else []) := by
  unfold processKey
  by_cases h : classify (resultOf suite_a k) (resultOf suite_b k) = ComparisonResult.WORKS
  · have hne : ¬ classify (resultOf suite_a k) (resultOf suite_b k) = cat := by
      rw [h]; exact fun hc => hcat hc.symm
    simp [h, list_setCounts, if_neg hne, XUnitComparison.list]
    cases cat <;> simp_all [XUnitComparison.list]
  · rw [if_neg h, list_appendComparison _ _ _ _ hcat, list_setCounts]

theorem compare_test_suites_counts_get (all_keys : List String)
    (suite_a suite_b : XUnitTestSuite) (out : XUnitComparison) (cat : ComparisonResult) :
    (compare_test_suites all_keys suite_a suite_b out).total_counts.get cat =
      out.total_counts.get cat +
        all_keys.countP
          (fun k => decide (classify (resultOf suite_a k) (resultOf suite_b k) = cat)) := by
  induction all_keys generalizing out with
  | nil => simp [compare_test_suites]
  | cons k ks ih =>
      rw [compare_test_suites, List.foldl_cons, ← compare_test_suites, ih,
        processKey_counts_get, List.countP_cons]
      by_cases h : classify (resultOf suite_a k) (resultOf suite_b k) = cat
      · simp [h]; omega
      · simp [h]

theorem compare_test_suites_sumCounts (all_keys : List String)
    (suite_a suite_b : XUnitTestSuite) (out : XUnitComparison) :
    sumCounts (compare_test_suites all_keys suite_a suite_b out).total_counts =
      sumCounts out.total_counts + all_keys.length := by
  induction all_keys generalizing out with
  | nil => simp [compare_test_suites]
  | cons k ks ih =>
      rw [compare_test_suites, List.foldl_cons, ← compare_test_suites, ih,
        processKey_sumCounts, List.length_cons]
      omega

theorem compare_test_suites_status (all_keys : List String)
    (suite_a suite_b : XUnitTestSuite) (out : XUnitComparison) :
    (compare_test_suites all_keys suite_a suite_b out).status = out.status := by
  induction all_keys generalizing out with
  | nil => rfl
  | cons k ks ih =>
      rw [compare_test_suites, List.foldl_cons, ← compare_test_suites, ih,
        processKey_status]

theorem compare_test_suites_metadata (all_keys : List String)
    (suite_a suite_b : XUnitTestSuite) (out : XUnitComparison) :
    (compare_test_suites all_keys suite_a suite_b out).metadata = out.metadata := by
  induction all_keys generalizing out with
  | nil => rfl
  | cons k ks ih =>
      rw [compare_test_suites, List.foldl_cons, ← compare_test_suites, ih,
        processKey_metadata]

theorem compare_test_suites_list (all_keys : List String)
    (suite_a suite_b : XUnitTestSuite) (out : XUnitComparison) (cat : ComparisonResult)
    (hcat : cat ≠ ComparisonResult.WORKS) :
    (compare_test_suites all_keys suite_a suite_b out).list cat =
      out.list cat ++
        (all_keys.filter
          (fun k => decide (classify (resultOf suite_a k) (resultOf suite_b k) = cat))).map
          (mkComparisonEntry suite_a suite_b) := by
  induction all_keys generalizing out with
  | nil => simp [compare_test_suites]
  | cons k ks ih =>
      rw [compare_test_suites, List.foldl_cons, ← compare_test_suites, ih,
        processKey_list _ _ _ _ _ hcat, List.filter_cons]
      by_cases h : classify (resultOf suite_a k) (resultOf suite_b k) = cat
      · simp [h]
      · simp [h]

theorem processSuiteKey_counts_get (test_suites_a test_suites_b : List XUnitTestSuite)
    (out : XUnitComparison) (k : String × String) (cat : ComparisonResult) :
    (processSuiteKey test_suites_a test_suites_b out k).total_counts.get cat =
      out.total_counts.get cat + suiteKeyCount test_suites_a test_suites_b k cat := by
  unfold processSuiteKey suiteKeyCount
  cases findSuite test_suites_a k <;> cases findSuite test_suites_b k <;>
    simp [compare_test_suites_counts_get]

theorem processSuiteKey_sumCounts (test_suites_a test_suites_b : List XUnitTestSuite)
    (out : XUnitComparison) (k : String × String) :
    sumCounts (processSuiteKey test_suites_a test_suites_b out k).total_counts =
      sumCounts out.total_counts + suiteKeyUnionLen test_suites_a test_suites_b k := by
  unfold processSuiteKey suiteKeyUnionLen
  cases findSuite test_suites_a k <;> cases findSuite test_suites_b k <;>
    simp [compare_test_suites_sumCounts]

theorem processSuiteKey_list (test_suites_a test_suites_b : List XUnitTestSuite)
    (out : XUnitComparison) (k : String × String) (cat : ComparisonResult)
    (hcat : cat ≠ ComparisonResult.WORKS) :
    (processSuiteKey test_suites_a test_suites_b out k).list cat =
      out.list cat ++ suiteKeyEntries test_suites_a test_suites_b k cat := by
  unfold processSuiteKey suiteKeyEntries
  cases findSuite test_suites_a k <;> cases findSuite test_suites_b k <;>
    simp [compare_test_suites_list _ _ _ _ _ hcat]

theorem processSuiteKey_status (test_suites_a test_suites_b : List XUnitTestSuite)
    (out : XUnitComparison) (k : String × String) :
    (processSuiteKey test_suites_a test_suites_b out k).status = out.status := by
  unfold processSuiteKey
  cases findSuite test_suites_a k <;> cases findSuite test_suites_b k <;>
    simp [compare_test_suites_status]

theorem processSuiteKey_metadata (test_suites_a test_suites_b : List XUnitTestSuite)
    (out : XUnitComparison) (k : String × String) :
    (processSuiteKey test_suites_a test_suites_b out k).metadata = out.metadata := by
  unfold processSuiteKey
  cases findSuite test_suites_a k <;> cases findSuite test_suites_b k <;>
    simp [compare_test_suites_metadata]

theorem docsFold_counts_get (suite_keys : List (String × String))
    (test_suites_a test_suites_b : List XUnitTestSuite) (out : XUnitComparison)
    (cat : ComparisonResult) :
    ((suite_keys.foldl (processSuiteKey test_suites_a test_suites_b) out).total_counts).get cat =
      out.total_counts.get cat +
        (suite_keys.map (fun k => suiteKeyCount test_suites_a test_suites_b k cat)).sum := by
  induction suite_keys generalizing out with
  | nil => simp
  | cons k ks ih =>
      rw [List.foldl_cons, ih, processSuiteKey_counts_get, List.map_cons, List.sum_cons]
      omega

theorem docsFold_sumCounts (suite_keys : List (String × String))
    (test_suites_a test_suites_b : List XUnitTestSuite) (out : XUnitComparison) :
    sumCounts (suite_keys.foldl (processSuiteKey test_suites_a test_suites_b) out).total_counts =
      sumCounts out.total_counts +
        (suite_keys.map (suiteKeyUnionLen test_suites_a test_suites_b)).sum := by
  induction suite_keys generalizing out with
  | nil => simp
  | cons k ks ih =>
      rw [List.foldl_cons, ih, processSuiteKey_sumCounts, List.map_cons, List.sum_cons]
      omega

theorem docsFold_list (suite_keys : List (String × String))
    (test_suites_a test_suites_b : List XUnitTestSuite) (out : XUnitComparison)
    (cat : ComparisonResult) (hcat : cat ≠ ComparisonResult.WORKS) :
    (suite_keys.foldl (processSuiteKey test_suites_a test_suites_b) out).list cat =
      out.list cat ++
        suite_keys.flatMap (fun k => suiteKeyEntries test_suites_a test_suites_b k cat) := by
  induction suite_keys generalizing out with
  | nil => simp
  | cons k ks ih =>
      rw [List.foldl_cons, ih, processSuiteKey_list _ _ _ _ _ hcat, List.flatMap_cons,
        List.append_assoc]

theorem docsFold_status (suite_keys : List (String × String))
    (test_suites_a test_suites_b : List XUnitTestSuite) (out : XUnitComparison) :
    (suite_keys.foldl (processSuiteKey test_suites_a test_suites_b) out).status =
      out.status := by
  induction suite_keys generalizing out with
  | nil => rfl
  | cons k ks ih => rw [List.foldl_cons, ih, processSuiteKey_status]

theorem docsFold_metadata (suite_keys : List (String × String))
    (test_suites_a test_suites_b : List XUnitTestSuite) (out : XUnitComparison) :
    (suite_keys.foldl (processSuiteKey test_suites_a test_suites_b) out).metadata =
      out.metadata := by
  induction suite_keys generalizing out with
  | nil => rfl
  | cons k ks ih => rw [List.foldl_cons, ih, processSuiteKey_metadata]

theorem compare_xunit_files_ok (test_suites_a test_suites_b : List XUnitTestSuite)
    (metadata : List (String × String)) (h : sameSuiteKeys test_suites_a test_suites_b) :
    compare_xunit_files test_suites_a test_suites_b metadata =
      .ok ((suiteKeys test_suites_a).foldl (processSuiteKey test_suites_a test_suites_b)
        (initialComparison metadata)) := by
  unfold compare_xunit_files compareXunitDocs
  rw [if_pos h]

theorem compare_xunit_files_mismatch (test_suites_a test_suites_b : List XUnitTestSuite)
    (metadata : List (String × String))
    (h : ¬ sameSuiteKeys test_suites_a test_suites_b) :
    compare_xunit_files test_suites_a test_suites_b metadata =
      .error (mismatchMessage test_suites_a test_suites_b) := by
  unfold compare_xunit_files compareXunitDocs
  rw [if_neg h]

theorem initialComparison_counts_get (metadata : List (String × String))
    (cat : ComparisonResult) :
    (initialComparison metadata).total_counts.get cat = 0 := by
  cases cat <;> rfl

theorem initialComparison_list (metadata : List (String × String))
    (cat : ComparisonResult) :
    (initialComparison metadata).list cat = [] := by
  cases cat <;> rfl

/-! ## Symmetry of the classification -/

theorem classify_swap_works : ∀ ra rb,
    classify ra rb = ComparisonResult.WORKS ↔ classify rb ra = ComparisonResult.WORKS := by
  decide

theorem classify_swap_regression : ∀ ra rb,
    classify ra rb = ComparisonResult.REGRESSION ↔ classify rb ra = ComparisonResult.FIXED := by
  decide

theorem classify_swap_broken : ∀ ra rb,
    classify ra rb = ComparisonResult.BROKEN ↔ classify rb ra = ComparisonResult.BROKEN := by
  decide

theorem unionKeys_perm (suite_a suite_b : XUnitTestSuite) :
    (unionKeys suite_a suite_b).Perm (unionKeys suite_b suite_a) := by
  unfold unionKeys
  rw [List.perm_ext_iff_of_nodup (List.nodup_dedup _) (List.nodup_dedup _)]
  intro n
  simp only [List.mem_dedup, List.mem_append]
  tauto

theorem suiteKeyCount_swap (test_suites_a test_suites_b : List XUnitTestSuite)
    (k : String × String) (cat cat2 : ComparisonResult)
    (hswap : ∀ ra rb, classify ra rb = cat ↔ classify rb ra = cat2) :
    suiteKeyCount test_suites_a test_suites_b k cat =
      suiteKeyCount test_suites_b test_suites_a k cat2 := by
  unfold suiteKeyCount
  cases ha : findSuite test_suites_a k <;> cases hb : findSuite test_suites_b k <;> simp
  rename_i suite_a suite_b
  have step1 : (unionKeys suite_a suite_b).countP
      (fun n => decide (classify (resultOf suite_a n) (resultOf suite_b n) = cat)) =
      (unionKeys suite_a suite_b).countP
      (fun n => decide (classify (resultOf suite_b n) (resultOf suite_a n) = cat2)) :=
    List.countP_congr (fun n _ => by
      constructor
      · intro hn
        simp only [decide_eq_true_eq] at *
        exact (hswap _ _).mp hn
      · intro hn
        simp only [decide_eq_true_eq] at *
        exact (hswap _ _).mpr hn)
  rw [step1, (unionKeys_perm suite_a suite_b).countP_eq]

theorem suiteKeys_perm (test_suites_a test_suites_b : List XUnitTestSuite)
    (h : sameSuiteKeys test_suites_a test_suites_b) :
    (suiteKeys test_suites_a).Perm (suiteKeys test_suites_b) := by
  have h1 := h.1
  have h2 := h.2
  unfold suiteKeys at *
  rw [List.perm_ext_iff_of_nodup (List.nodup_dedup _) (List.nodup_dedup _)]
  exact fun k => ⟨fun hk => h1 hk, fun hk => h2 hk⟩

theorem suiteKeyEntries_length (test_suites_a test_suites_b : List XUnitTestSuite)
    (k : String × String) (cat : ComparisonResult) :
    (suiteKeyEntries test_suites_a test_suites_b k cat).length =
      suiteKeyCount test_suites_a test_suites_b k cat := by
  unfold suiteKeyEntries suiteKeyCount
  cases findSuite test_suites_a k <;> cases findSuite test_suites_b k <;>
    simp [List.countP_eq_length_filter]

theorem suiteKeyPairs_length (test_suites_a test_suites_b : List XUnitTestSuite)
    (k : String × String) :
    (suiteKeyPairs test_suites_a test_suites_b k).length =
      suiteKeyUnionLen test_suites_a test_suites_b k := by
  unfold suiteKeyPairs suiteKeyUnionLen
  cases findSuite test_suites_a k <;> cases findSuite test_suites_b k <;> simp

theorem suiteKeyPairs_fst (test_suites_a test_suites_b : List XUnitTestSuite)
    (k : String × String) (x : (String × String) × String)
    (hx : x ∈ suiteKeyPairs test_suites_a test_suites_b k) : x.1 = k := by
  unfold suiteKeyPairs at hx
  split at hx
  · simp only [List.mem_map] at hx
    obtain ⟨n, _, rfl⟩ := hx
    rfl
  · exact absurd hx (List.not_mem_nil x)

theorem suiteKeyPairs_nodup (test_suites_a test_suites_b : List XUnitTestSuite)
    (k : String × String) : (suiteKeyPairs test_suites_a test_suites_b k).Nodup := by
  unfold suiteKeyPairs
  split
  · exact (List.nodup_dedup _).map (fun n1 n2 h => congrArg Prod.snd h)
  · exact List.nodup_nil

theorem suiteKeys_nodup (test_suites : List XUnitTestSuite) :
    (suiteKeys test_suites).Nodup := by
  unfold suiteKeys
  exact List.nodup_dedup _

theorem unionPairs_length (test_suites_a test_suites_b : List XUnitTestSuite) :
    (unionPairs test_suites_a test_suites_b).length =
      ((suiteKeys test_suites_a).map (suiteKeyUnionLen test_suites_a test_suites_b)).sum := by
  unfold unionPairs
  rw [List.length_flatMap]
  congr 1
  exact List.map_congr_left (fun k _ => suiteKeyPairs_length test_suites_a test_suites_b k)

theorem unionPairs_nodup (test_suites_a test_suites_b : List XUnitTestSuite) :
    (unionPairs test_suites_a test_suites_b).Nodup := by
  unfold unionPairs
  rw [List.nodup_flatMap]
  refine ⟨fun k _ => suiteKeyPairs_nodup test_suites_a test_suites_b k, ?_⟩
  have hnd := suiteKeys_nodup test_suites_a
  refine hnd.imp ?_
  intro k k' hne
  intro x hx1 hx2
  have h1 := suiteKeyPairs_fst test_suites_a test_suites_b k x hx1
  have h2 := suiteKeyPairs_fst test_suites_a test_suites_b k' x hx2
  exact hne (h1 ▸ h2 ▸ rfl)

theorem compare_xunit_files_ok_inv (test_suites_a test_suites_b : List XUnitTestSuite)
    (metadata : List (String × String)) (c : XUnitComparison)
    (h : compare_xunit_files test_suites_a test_suites_b metadata = .ok c) :
    sameSuiteKeys test_suites_a test_suites_b ∧
      c = (suiteKeys test_suites_a).foldl (processSuiteKey test_suites_a test_suites_b)
        (initialComparison metadata) := by
  by_cases hs : sameSuiteKeys test_suites_a test_suites_b
  · rw [compare_xunit_files_ok _ _ _ hs] at h
    injection h with h1
    exact ⟨hs, h1.symm⟩
  · rw [compare_xunit_files_mismatch _ _ _ hs] at h
    exact absurd h (by simp)

theorem counts_sum_swap (test_suites_a test_suites_b : List XUnitTestSuite)
    (h : sameSuiteKeys test_suites_a test_suites_b) (cat cat2 : ComparisonResult)
    (hswap : ∀ ra rb, classify ra rb = cat ↔ classify rb ra = cat2) :
    ((suiteKeys test_suites_a).map
      (fun k => suiteKeyCount test_suites_a test_suites_b k cat)).sum =
    ((suiteKeys test_suites_b).map
      (fun k => suiteKeyCount test_suites_b test_suites_a k cat2)).sum := by
  have hfun : (fun k => suiteKeyCount test_suites_a test_suites_b k cat) =
      (fun k => suiteKeyCount test_suites_b test_suites_a k cat2) :=
    funext (fun k => suiteKeyCount_swap test_suites_a test_suites_b k cat cat2 hswap)
  rw [hfun]
  exact ((suiteKeys_perm test_suites_a test_suites_b h).map _).sum_eq

attribute [ext] XUnitComparisonCounts XUnitComparisonStatus XUnitComparison

/-! ## Claim theorems -/

/-- Claim C4: for every pair of comparable XUnit documents A and B, the
regression count of compare(A,B) equals the fixed count of compare(B,A) and
vice versa, and the works and broken counts agree between the two directions. -/
theorem c4_compare_count_symmetry (test_suites_a test_suites_b : List XUnitTestSuite)
    (md_ab md_ba : List (String × String)) (cAB cBA : XUnitComparison)
    (hab : compare_xunit_files test_suites_a test_suites_b md_ab = .ok cAB)
    (hba : compare_xunit_files test_suites_b test_suites_a md_ba = .ok cBA) :
    cAB.total_counts.regression = cBA.total_counts.fixed ∧
    cAB.total_counts.fixed = cBA.total_counts.regression ∧
    cAB.total_counts.works = cBA.total_counts.works ∧
    cAB.total_counts.broken = cBA.total_counts.broken := by
  obtain ⟨hs, rfl⟩ := compare_xunit_files_ok_inv _ _ _ _ hab
  obtain ⟨hs2, rfl⟩ := compare_xunit_files_ok_inv _ _ _ _ hba
  have hg : ∀ cat cat2, (∀ ra rb, classify ra rb = cat ↔ classify rb ra = cat2) →
      ((suiteKeys test_suites_a).foldl (processSuiteKey test_suites_a test_suites_b)
        (initialComparison md_ab)).total_counts.get cat =
      ((suiteKeys test_suites_b).foldl (processSuiteKey test_suites_b test_suites_a)
        (initialComparison md_ba)).total_counts.get cat2 := by
    intro cat cat2 hswap
    rw [docsFold_counts_get, docsFold_counts_get, initialComparison_counts_get,
      initialComparison_counts_get]
    simpa using counts_sum_swap test_suites_a test_suites_b hs cat cat2 hswap
  exact ⟨hg ComparisonResult.REGRESSION ComparisonResult.FIXED classify_swap_regression,
    hg ComparisonResult.FIXED ComparisonResult.REGRESSION
      (fun ra rb => (classify_swap_regression rb ra).symm),
    hg ComparisonResult.WORKS ComparisonResult.WORKS classify_swap_works,
    hg ComparisonResult.BROKEN ComparisonResult.BROKEN classify_swap_broken⟩

/-- Claim C10: for every generated comparison, each non-works category count
equals the length of its detail list, works has a count but no detail list,
and the five counts sum to the number of distinct (suite, test-name) pairs in
the union of the matched suites. -/
theorem c10_count_list_invariants (test_suites_a test_suites_b : List XUnitTestSuite)
    (metadata : List (String × String)) (c : XUnitComparison)
    (h : compare_xunit_files test_suites_a test_suites_b metadata = .ok c) :
    c.total_counts.regression = c.regression.length ∧
    c.total_counts.fixed = c.fixed.length ∧
    c.total_counts.broken = c.broken.length ∧
    c.total_counts.difference = c.difference.length ∧
    c.list ComparisonResult.WORKS = [] ∧
    c.total_counts.works + c.total_counts.regression + c.total_counts.fixed +
        c.total_counts.broken + c.total_counts.difference =
      (unionPairs test_suites_a test_suites_b).length ∧
    (unionPairs test_suites_a test_suites_b).Nodup := by
  obtain ⟨hs, rfl⟩ := compare_xunit_files_ok_inv _ _ _ _ h
  have hcat : ∀ cat : ComparisonResult, cat ≠ ComparisonResult.WORKS →
      ((suiteKeys test_suites_a).foldl (processSuiteKey test_suites_a test_suites_b)
        (initialComparison metadata)).total_counts.get cat =
      (((suiteKeys test_suites_a).foldl (processSuiteKey test_suites_a test_suites_b)
        (initialComparison metadata)).list cat).length := by
    intro cat hne
    rw [docsFold_counts_get, initialComparison_counts_get, docsFold_list _ _ _ _ _ hne,
      initialComparison_list, List.nil_append, List.length_flatMap]
    have hfun : (List.length ∘ fun k => suiteKeyEntries test_suites_a test_suites_b k cat) =
        (fun k => suiteKeyCount test_suites_a test_suites_b k cat) :=
      funext (fun k => suiteKeyEntries_length test_suites_a test_suites_b k cat)
    rw [hfun]
    omega
  have hsum : sumCounts ((suiteKeys test_suites_a).foldl
        (processSuiteKey test_suites_a test_suites_b)
        (initialComparison metadata)).total_counts =
      (unionPairs test_suites_a test_suites_b).length := by
    rw [docsFold_sumCounts, unionPairs_length]
    simp [initialComparison, sumCounts]
  exact ⟨hcat ComparisonResult.REGRESSION (by simp),
    hcat ComparisonResult.FIXED (by simp),
    hcat ComparisonResult.BROKEN (by simp),
    hcat ComparisonResult.DIFFERENCE (by simp),
    rfl, hsum, unionPairs_nodup test_suites_a test_suites_b⟩

/-- Claim C3: every union test-case name is classified into exactly one
category by the `(result_a, result_b)` pair following the fixed table, and in
particular a test `t1` failing in document A with log `l1` and passing in
document B with log `l2` lands in `fixed` with `log_url_a = l1`,
`log_url_b = l2` and a fixed-count of 1. -/
theorem c3_classification_table :
    (∀ ra rb : XUnitTestCaseResult,
      (classify ra rb = ComparisonResult.WORKS ↔ ra = .PASS ∧ rb = .PASS) ∧
      (classify ra rb = ComparisonResult.REGRESSION ↔
        ra = .PASS ∧ (rb = .FAIL ∨ rb = .ERROR)) ∧
      (classify ra rb = ComparisonResult.FIXED ↔
        (ra = .FAIL ∨ ra = .ERROR) ∧ rb = .PASS) ∧
      (classify ra rb = ComparisonResult.BROKEN ↔
        (ra = .FAIL ∨ ra = .ERROR) ∧ (rb = .FAIL ∨ rb = .ERROR)) ∧
      (classify ra rb = ComparisonResult.DIFFERENCE ↔
        ¬(ra = .PASS ∧ rb = .PASS) ∧
        ¬(ra = .PASS ∧ (rb = .FAIL ∨ rb = .ERROR)) ∧
        ¬((ra = .FAIL ∨ ra = .ERROR) ∧ rb = .PASS) ∧
        ¬((ra = .FAIL ∨ ra = .ERROR) ∧ (rb = .FAIL ∨ rb = .ERROR)))) ∧
    (∀ arch sname t1 u r l1 u2 r2 l2 : String, ∀ md : List (String × String),
      compare_xunit_files
          [⟨arch, sname, [⟨t1, u, r, l1, XUnitTestCaseResult.FAIL⟩]⟩]
          [⟨arch, sname, [⟨t1, u2, r2, l2, XUnitTestCaseResult.PASS⟩]⟩]
          md =
        .ok ⟨⟨true, some "Comparison generated successfully"⟩, md, ⟨0, 0, 1, 0, 0⟩,
          [], [⟨t1, arch, u, r, XUnitTestCaseResult.FAIL, XUnitTestCaseResult.PASS, l1, l2⟩],
          [], []⟩) := by
  constructor
  · decide
  · intro arch sname t1 u r l1 u2 r2 l2 md
    have hsame : sameSuiteKeys
        [⟨arch, sname, [⟨t1, u, r, l1, XUnitTestCaseResult.FAIL⟩]⟩]
        [⟨arch, sname, [⟨t1, u2, r2, l2, XUnitTestCaseResult.PASS⟩]⟩] := by
      constructor <;> simp [suiteKeys, suiteKey]
    rw [compare_xunit_files_ok _ _ _ hsame]
    simp [suiteKeys, suiteKey, processSuiteKey, findSuite, unionKeys,
      compare_test_suites, processKey, resultOf, caseMapGet, logUrlOf,
      mkComparisonEntry, classify, bumpCounts, appendComparison, initialComparison]

/-- A small concrete document pair used to instantiate the comparison
theorems: `t1` regresses from A to B and `t2` is fixed. -/
def witDocA : List XUnitTestSuite :=
  [⟨"x86_64", "/plans/test",
    [⟨"t1", "u", "r", "la", XUnitTestCaseResult.PASS⟩,
     ⟨"t2", "u", "r", "lb", XUnitTestCaseResult.FAIL⟩]⟩]

def witDocB : List XUnitTestSuite :=
  [⟨"x86_64", "/plans/test",
    [⟨"t1", "u", "r", "lc", XUnitTestCaseResult.FAIL⟩,
     ⟨"t2", "u", "r", "ld", XUnitTestCaseResult.PASS⟩]⟩]

/-- The comparison of `witDocA` against `witDocB`. -/
def witResAB : XUnitComparison :=
  ⟨⟨true, some "Comparison generated successfully"⟩, [], ⟨0, 1, 1, 0, 0⟩,
    [⟨"t1", "x86_64", "u", "r", XUnitTestCaseResult.PASS, XUnitTestCaseResult.FAIL,
      "la", "lc"⟩],
    [⟨"t2", "x86_64", "u", "r", XUnitTestCaseResult.FAIL, XUnitTestCaseResult.PASS,
      "lb", "ld"⟩],
    [], []⟩

/-- The comparison of `witDocB` against `witDocA`. -/
def witResBA : XUnitComparison :=
  ⟨⟨true, some "Comparison generated successfully"⟩, [], ⟨0, 1, 1, 0, 0⟩,
    [⟨"t2", "x86_64", "u", "r", XUnitTestCaseResult.PASS, XUnitTestCaseResult.FAIL,
      "ld", "lb"⟩],
    [⟨"t1", "x86_64", "u", "r", XUnitTestCaseResult.FAIL, XUnitTestCaseResult.PASS,
      "lc", "la"⟩],
    [], []⟩

theorem c4_compare_count_symmetry_witness :
    compare_xunit_files witDocA witDocB [] = .ok witResAB ∧
    compare_xunit_files witDocB witDocA [] = .ok witResBA ∧
    (witResAB.total_counts.regression = witResBA.total_counts.fixed ∧
     witResAB.total_counts.fixed = witResBA.total_counts.regression ∧
     witResAB.total_counts.works = witResBA.total_counts.works ∧
     witResAB.total_counts.broken = witResBA.total_counts.broken) :=
  ⟨by decide, by decide,
    c4_compare_count_symmetry witDocA witDocB [] [] witResAB witResBA
      (by decide) (by decide)⟩

theorem c10_count_list_invariants_witness :
    compare_xunit_files witDocA witDocB [] = .ok witResAB ∧
    (witResAB.total_counts.regression = witResAB.regression.length ∧
     witResAB.total_counts.fixed = witResAB.fixed.length ∧
     witResAB.total_counts.broken = witResAB.broken.length ∧
     witResAB.total_counts.difference = witResAB.difference.length ∧
     witResAB.list ComparisonResult.WORKS = [] ∧
     witResAB.total_counts.works + witResAB.total_counts.regression +
         witResAB.total_counts.fixed + witResAB.total_counts.broken +
         witResAB.total_counts.difference = (unionPairs witDocA witDocB).length ∧
     (unionPairs witDocA witDocB).Nodup) :=
  ⟨by decide, c10_count_list_invariants witDocA witDocB [] witResAB (by decide)⟩

/-- Two documents whose suite key-sets differ. -/
def mismatchDocA : List XUnitTestSuite :=
  [⟨"x86_64", "/plans/suite1", [⟨"t1", "u", "r", "l", XUnitTestCaseResult.PASS⟩]⟩]

def mismatchDocB : List XUnitTestSuite :=
  [⟨"x86_64", "/plans/suite2", [⟨"t1", "u", "r", "l", XUnitTestCaseResult.PASS⟩]⟩]

/-- Claim C1 counterexample: on documents with differing suite key-sets,
`compare_xunit_files` does not return an `XUnitComparison` with
`generated = false` - it raises `ValueError` (an `Except.error`), so no
comparison object of any kind is returned. -/
theorem c1_counterexample :
    ¬ sameSuiteKeys mismatchDocA mismatchDocB ∧
    compare_xunit_files mismatchDocA mismatchDocB [] =
      Except.error (mismatchMessage mismatchDocA mismatchDocB) ∧
    (compare_xunit_files mismatchDocA mismatchDocB []).isOk = false := by
  refine ⟨by decide, ?_, by decide⟩
  exact compare_xunit_files_mismatch _ _ _ (by decide)

/-- Claim C1 (amended): when the suite key-sets differ, `compare_xunit_files`
raises `ValueError` whose message states both key sets; it never returns a
partial comparison (nor any comparison object).  Non-generated
`XUnitComparison` values with a stated reason are produced only by the caller
(`BaselineTests.create_attachments`) for missing result artifacts. -/
theorem c1_mismatch_is_error (test_suites_a test_suites_b : List XUnitTestSuite)
    (metadata : List (String × String))
    (h : ¬ sameSuiteKeys test_suites_a test_suites_b) :
    compare_xunit_files test_suites_a test_suites_b metadata =
      Except.error (mismatchMessage test_suites_a test_suites_b) ∧
    ∀ reason : String,
      create_not_generated_comparison metadata reason =
        { status := { generated := false, reason := some reason }
          metadata := metadata } :=
  ⟨compare_xunit_files_mismatch _ _ _ h, fun _ => rfl⟩

theorem c1_mismatch_is_error_witness :
    ¬ sameSuiteKeys mismatchDocA mismatchDocB ∧
    compare_xunit_files mismatchDocA mismatchDocB [] =
      Except.error (mismatchMessage mismatchDocA mismatchDocB) :=
  ⟨by decide, (c1_mismatch_is_error mismatchDocA mismatchDocB [] (by decide)).1⟩

/-- A suite pair with two fixed tests whose document order (`"b"` before
`"a"`) is not alphabetical. -/
def orderSuiteA : XUnitTestSuite :=
  ⟨"x86_64", "/plans/test",
    [⟨"b", "u", "r", "lb", XUnitTestCaseResult.FAIL⟩,
     ⟨"a", "u", "r", "la", XUnitTestCaseResult.FAIL⟩]⟩

def orderSuiteB : XUnitTestSuite :=
  ⟨"x86_64", "/plans/test",
    [⟨"b", "u", "r", "lb2", XUnitTestCaseResult.PASS⟩,
     ⟨"a", "u", "r", "la2", XUnitTestCaseResult.PASS⟩]⟩

/-- Claim C2 counterexample: the engine renders category entries in container
(set) iteration order, not in test-name order.  Both `["b", "a"]` and
`["a", "b"]` are valid iteration orders of the same union key set; under the
first the fixed list comes out as `b` before `a` (not name order), and the
serialized reports of the two runs on identical documents differ byte-wise. -/
theorem c2_counterexample :
    KeysValid ["b", "a"] orderSuiteA orderSuiteB ∧
    KeysValid ["a", "b"] orderSuiteA orderSuiteB ∧
    ((compare_test_suites ["b", "a"] orderSuiteA orderSuiteB
        (initialComparison [])).fixed.map XUnitTestCaseComparison.name) = ["b", "a"] ∧
    to_toml (compare_test_suites ["b", "a"] orderSuiteA orderSuiteB
        (initialComparison [])) ≠
      to_toml (compare_test_suites ["a", "b"] orderSuiteA orderSuiteB
        (initialComparison [])) := by
  refine ⟨by decide, by decide, by decide, by decide⟩

/-- Claim C2 (amended): the comparison is a pure function of the documents and
the set-iteration order, so identical inputs under the same iteration order
serialize byte-identically; but within each category the entries appear in
container iteration order - `compare_test_suites` never sorts by test name. -/
theorem c2_entries_follow_iteration_order (all_keys : List String)
    (suite_a suite_b : XUnitTestSuite) (md : List (String × String)) :
    (compare_test_suites all_keys suite_a suite_b (initialComparison md)).regression =
      (all_keys.filter (fun k => decide (classify (resultOf suite_a k)
        (resultOf suite_b k) = ComparisonResult.REGRESSION))).map
        (mkComparisonEntry suite_a suite_b) ∧
    (compare_test_suites all_keys suite_a suite_b (initialComparison md)).fixed =
      (all_keys.filter (fun k => decide (classify (resultOf suite_a k)
        (resultOf suite_b k) = ComparisonResult.FIXED))).map
        (mkComparisonEntry suite_a suite_b) ∧
    (compare_test_suites all_keys suite_a suite_b (initialComparison md)).broken =
      (all_keys.filter (fun k => decide (classify (resultOf suite_a k)
        (resultOf suite_b k) = ComparisonResult.BROKEN))).map
        (mkComparisonEntry suite_a suite_b) ∧
    (compare_test_suites all_keys suite_a suite_b (initialComparison md)).difference =
      (all_keys.filter (fun k => decide (classify (resultOf suite_a k)
        (resultOf suite_b k) = ComparisonResult.DIFFERENCE))).map
        (mkComparisonEntry suite_a suite_b) := by
  refine ⟨?_, ?_, ?_, ?_⟩ <;>
  · first
    | simpa using compare_test_suites_list all_keys suite_a suite_b
        (initialComparison md) ComparisonResult.REGRESSION (by simp)
    | simpa using compare_test_suites_list all_keys suite_a suite_b
        (initialComparison md) ComparisonResult.FIXED (by simp)
    | simpa using compare_test_suites_list all_keys suite_a suite_b
        (initialComparison md) ComparisonResult.BROKEN (by simp)
    | simpa using compare_test_suites_list all_keys suite_a suite_b
        (initialComparison md) ComparisonResult.DIFFERENCE (by simp)

/-- Claim C5: `try_to_advance` first consults the freshly fetched rule set,
and whenever its declared `to_status` differs from the requested target it
escalates (flags for human attention, returning a terminal result with
`reschedule_in = -1`), regardless of the individual rule outcomes. -/
theorem c5_stale_rule_set_escalates (env : ErratumEnv) (erratum : Erratum)
    (new_status : ErrataStatus) (h : env.rule_set.to_status ≠ new_status) :
    try_to_advance_erratum env erratum new_status =
      .ok (erratumFlagAttention env erratum
        ("Next state is " ++ env.rule_set.to_status.str ++ " instead of " ++
          new_status.str)) ∧
    (erratumFlagAttention env erratum
      ("Next state is " ++ env.rule_set.to_status.str ++ " instead of " ++
        new_status.str)).2.reschedule_in = -1 := by
  refine ⟨?_, rfl⟩
  unfold try_to_advance_erratum
  simp [h]
  rfl

/-- Concrete erratum used to instantiate the handler theorems. -/
def witErratum : Erratum :=
  { id := 12345
    full_advisory := "RHBA-2025:0001-01"
    url := "https://errata.engineering.redhat.com/advisory/12345"
    synopsis := "libtiff bug fix and enhancement update"
    status := ErrataStatus.NEW_FILES
    jira_issues := ["RHEL-1"]
    assigned_to_email := ERRATA_JOTNAR_BOT_EMAIL
    package_owner_email := ERRATA_JOTNAR_BOT_EMAIL }

/-- A dispatch environment whose fetched rule set declares a transition to
REL_PREP. -/
def witErratumEnv : ErratumEnv :=
  { rule_set := ⟨ErrataStatus.QE, ErrataStatus.REL_PREP,
      [⟨"Stagepush", TransitionRuleOutcome.BLOCK, "stage push pending"⟩]⟩
    push_details := ⟨none, none⟩
    build_map := []
    has_magic_string := fun _ => false
    prev_erratum_id := fun _ => none
    build_map_of := fun _ => []
    now := 0
    needs_attention := false
    issue_for_tag := some "RHELMISC-1"
    related_issues := [] }

theorem c5_stale_rule_set_escalates_witness :
    witErratumEnv.rule_set.to_status ≠ ErrataStatus.QE ∧
    try_to_advance_erratum witErratumEnv witErratum ErrataStatus.QE =
      .ok (erratumFlagAttention witErratumEnv witErratum
        ("Next state is " ++ witErratumEnv.rule_set.to_status.str ++ " instead of " ++
          ErrataStatus.QE.str)) :=
  ⟨by decide,
    (c5_stale_rule_set_escalates witErratumEnv witErratum ErrataStatus.QE (by decide)).1⟩

/-- A dispatch environment whose rule set matches the target but carries a
single non-Ok rule with outcome `Unknown` and an unrecognized name. -/
def unknownRuleEnv : ErratumEnv :=
  { witErratumEnv with
    rule_set := ⟨ErrataStatus.NEW_FILES, ErrataStatus.QE,
      [⟨"Customrule", TransitionRuleOutcome.UNKNOWN, "details-text"⟩]⟩ }

/-- Claim C6 counterexample: a rule with outcome `Unknown` and an unrecognized
name makes the handler escalate, but the escalation message lists only rules
with outcome `Block` - the `Unknown` rule's name and details are omitted, so
the message does not list every non-Ok rule verbatim. -/
theorem c6_counterexample :
    unknownRuleEnv.rule_set.all_ok = false ∧
    (∀ rule ∈ unknownRuleEnv.rule_set.rules, rule.outcome ≠ TransitionRuleOutcome.OK →
      rule.name ≠ "Stagepush" ∧ rule.name ≠ "Cat" ∧ rule.name ≠ "Securityalert") ∧
    try_to_advance_erratum unknownRuleEnv witErratum ErrataStatus.QE =
      .ok (erratumFlagAttention unknownRuleEnv witErratum
        "Transition to QE is blocked by:\n") ∧
    "Transition to QE is blocked by:\n" ≠
      "Transition to QE is blocked by:\nCustomrule: details-text" := by
  refine ⟨by decide, by decide, by decide, by decide⟩

/-- Claim C6 (amended): when the rule set targets the requested status, has at
least one non-Ok rule, and none of its non-Ok rules is named Stagepush, Cat or
Securityalert, the handler escalates terminally; the escalation message lists
name and details of every rule whose outcome is `Block`, while rules with
outcome `Unknown` trigger the escalation but are not listed. -/
theorem c6_unknown_blocking_rules_escalate (env : ErratumEnv) (erratum : Erratum)
    (new_status : ErrataStatus)
    (hto : env.rule_set.to_status = new_status)
    (hnotok : env.rule_set.all_ok = false)
    (hnames : ∀ rule ∈ env.rule_set.rules, rule.outcome ≠ TransitionRuleOutcome.OK →
      rule.name ≠ "Stagepush" ∧ rule.name ≠ "Cat" ∧ rule.name ≠ "Securityalert") :
    try_to_advance_erratum env erratum new_status =
      .ok (erratumFlagAttention env erratum
        ("Transition to " ++ new_status.str ++ " is blocked by:\n" ++
          String.intercalate "\n"
            ((env.rule_set.rules.filter
              (fun r => r.outcome == TransitionRuleOutcome.BLOCK)).map
              (fun r => r.name ++ ": " ++ r.details)))) ∧
    (erratumFlagAttention env erratum
      ("Transition to " ++ new_status.str ++ " is blocked by:\n" ++
        String.intercalate "\n"
          ((env.rule_set.rules.filter
            (fun r => r.outcome == TransitionRuleOutcome.BLOCK)).map
            (fun r => r.name ++ ": " ++ r.details)))).2.reschedule_in = -1 := by
  refine ⟨?_, rfl⟩
  have hmem : ∀ nm : String,
      ((env.rule_set.rules.filter
        (fun rule => rule.outcome != TransitionRuleOutcome.OK)).map
        TransitionRule.name).contains nm = true →
      ∃ rule ∈ env.rule_set.rules, rule.outcome ≠ TransitionRuleOutcome.OK ∧
        rule.name = nm := by
    intro nm hc
    rw [List.contains_iff_exists_mem_beq] at hc
    obtain ⟨nm2, hmem2, hbeq⟩ := hc
    rw [List.mem_map] at hmem2
    obtain ⟨rule, hrule, rfl⟩ := hmem2
    rw [List.mem_filter] at hrule
    refine ⟨rule, hrule.1, ?_, ?_⟩
    · simpa using hrule.2
    · exact (eq_of_beq hbeq).symm
  have hsp : ((env.rule_set.rules.filter
      (fun rule => rule.outcome != TransitionRuleOutcome.OK)).map
      TransitionRule.name).contains "Stagepush" = false := by
    by_contra hx
    have := hmem "Stagepush" (Bool.ne_false_iff.mp hx)
    obtain ⟨rule, hr, ho, hn⟩ := this
    exact ((hnames rule hr ho).1 hn)
  have hcat : ((env.rule_set.rules.filter
      (fun rule => rule.outcome != TransitionRuleOutcome.OK)).map
      TransitionRule.name).contains "Cat" = false := by
    by_contra hx
    have := hmem "Cat" (Bool.ne_false_iff.mp hx)
    obtain ⟨rule, hr, ho, hn⟩ := this
    exact ((hnames rule hr ho).2.1 hn)
  have hsa : ((env.rule_set.rules.filter
      (fun rule => rule.outcome != TransitionRuleOutcome.OK)).map
      TransitionRule.name).contains "Securityalert" = false := by
    by_contra hx
    have := hmem "Securityalert" (Bool.ne_false_iff.mp hx)
    obtain ⟨rule, hr, ho, hn⟩ := this
    exact ((hnames rule hr ho).2.2 hn)
  unfold try_to_advance_erratum
  simp only [hto, hnotok, hsp, hcat, hsa]
  simp
  rfl

theorem c6_unknown_blocking_rules_escalate_witness :
    unknownRuleEnv.rule_set.to_status = ErrataStatus.QE ∧
    unknownRuleEnv.rule_set.all_ok = false ∧
    try_to_advance_erratum unknownRuleEnv witErratum ErrataStatus.QE =
      .ok (erratumFlagAttention unknownRuleEnv witErratum
        ("Transition to " ++ ErrataStatus.QE.str ++ " is blocked by:\n" ++
          String.intercalate "\n"
            ((unknownRuleEnv.rule_set.rules.filter
              (fun r => r.outcome == TransitionRuleOutcome.BLOCK)).map
              (fun r => r.name ++ ": " ++ r.details)))) :=
  ⟨by decide, by decide,
    (c6_unknown_blocking_rules_escalate unknownRuleEnv witErratum ErrataStatus.QE
      (by decide) (by decide) (by decide)).1⟩

/-- A concrete dispatch environment for the issue-handler theorems: every
Testing Farm request reads back complete and passed, and the analyst reports
`tests-passed`. -/
def witIssueEnv : IssueEnv :=
  { getRequest := fun id =>
      { id := id
        url := TESTING_FARM_URL ++ "/requests/" ++ id
        state := TestingFarmRequestState.COMPLETE
        result := TestingFarmRequestResult.PASSED
        arches := ["x86_64"]
        build_nvr := "libtiff-4.0.9-35.el8" }
    xunitDocs := fun _ => []
    analyze := fun _ => { state := TestingState.PASSED }
    merged_mr := fun _ => none
    merged_mr_timestamps := []
    now := 0
    previous_erratum := none
    erratum_build_nvr := fun _ => none
    reproduce := fun _ _ => .error "not available" }

/-- An issue carrying the reproduction marker label whose persisted pairing
table has a malformed row (`"|x"` - fewer than 4 cells). -/
def malformedTableIssue : FullIssue :=
  { key := "RHEL-1"
    url := "https://issues.redhat.com/browse/RHEL-1"
    components := ["libtiff"]
    status := IssueStatus.INTEGRATION
    labels := ["jotnar_reproducing_tests"]
    errata_link := some "https://errata.engineering.redhat.com/advisory/12345"
    fixed_in_build := some "libtiff-4.0.9-35.el8"
    test_coverage := some [TestCoverage.AUTOMATED]
    preliminary_testing := some PreliminaryTesting.PASS
    comments := [⟨"10001",
      "Reproducing failed tests with previous build foo-1.2-3:\n" ++
      "||Architecture||Original Request||Request With Old Build||State||\n" ++
      "|x"⟩] }

/-- Claim C7 counterexample: a malformed pairing-table row is silently
skipped, not a hard error.  `load_from_issue` succeeds with an *empty*
pairing list, and `check()` proceeds normally (`reschedule_in = 0`, no
needs-attention flag anywhere in its effects) instead of escalating. -/
theorem c7_counterexample :
    load_from_issue malformedTableIssue =
      some { failure_comment := ""
             comparisons := []
             previous_build_nvr := "foo-1.2-3"
             comment_id := some "10001" } ∧
    parseRows ["|x"] = [] ∧
    resolve_check_reproduction witIssueEnv malformedTableIssue =
      .ok ([Effect.addIssueAttachments "RHEL-1" [],
            Effect.removeIssueLabel "RHEL-1" "jotnar_reproducing_tests",
            Effect.updateIssueComment "RHEL-1" "10001"
              (format_issue_comment witIssueEnv
                { failure_comment := ""
                  comparisons := []
                  previous_build_nvr := "foo-1.2-3"
                  comment_id := some "10001" } true)],
           { status := "Baseline tests are complete, will analyze results"
             reschedule_in := 0 }) ∧
    (match resolve_check_reproduction witIssueEnv malformedTableIssue with
     | .ok step => step.1.all fun effect =>
         match effect with
         | Effect.addIssueLabel _ label _ => label != "jotnar_needs_attention"
         | _ => true
     | .error _ => false) = true := by
  refine ⟨by decide, by decide, by decide, by decide⟩

/-- Claim C7 (amended): only a *total* parse failure (no comment matches the
table grammar at all) escalates with the needs-attention marker; inside the
newest matching comment, rows that do not fit the grammar (fewer than 4
`|`-separated cells) are silently dropped - recovery is best-effort, not a
hard error. -/
theorem c7_parse_failure_escalates_rows_skipped :
    (∀ (env : IssueEnv) (issue : FullIssue), load_from_issue issue = none →
      resolve_check_reproduction env issue =
        .ok (issueFlagAttention issue
          "Issue has jotnar_reproducing_tests label but cannot parse baseline tests from comments")) ∧
    (∀ (line : String) (rest : List String), startsWithLit line "|" = true →
      (splitString '|' (stripLinks line)).length < 4 →
      parseRows (line :: rest) = parseRows rest) := by
  constructor
  · intro env issue h
    unfold resolve_check_reproduction
    rw [h]
    rfl
  · intro line rest h1 h2
    rw [parseRows, h1]
    rw [show (!true) = false from rfl]
    rw [if_neg (by simp : ¬ (false = true))]
    rw [if_neg (Nat.not_le.mpr h2)]

/-- An issue with the marker label but no parsable table at all. -/
def noTableIssue : FullIssue :=
  { malformedTableIssue with comments := [] }

theorem c7_parse_failure_escalates_rows_skipped_witness :
    load_from_issue noTableIssue = none ∧
    resolve_check_reproduction witIssueEnv noTableIssue =
      .ok (issueFlagAttention noTableIssue
        "Issue has jotnar_reproducing_tests label but cannot parse baseline tests from comments") ∧
    (startsWithLit "|x" "|" = true ∧ (splitString '|' (stripLinks "|x")).length < 4 ∧
      parseRows ["|x"] = parseRows []) :=
  ⟨by decide,
    (c7_parse_failure_escalates_rows_skipped).1 witIssueEnv noTableIssue (by decide),
    by decide, by decide,
    (c7_parse_failure_escalates_rows_skipped).2 "|x" [] (by decide) (by decide)⟩

theorem label_merge_if_needed_fields (env : IssueEnv) (issue : FullIssue) :
    (label_merge_if_needed env issue).1.key = issue.key ∧
    (label_merge_if_needed env issue).1.status = issue.status ∧
    ((label_merge_if_needed env issue).1.labels.contains "jotnar_reproducing_tests" =
      issue.labels.contains "jotnar_reproducing_tests") := by
  unfold label_merge_if_needed
  by_cases hc : ((issue.labels.contains "jotnar_backported" ||
      issue.labels.contains "jotnar_rebased") &&
      !issue.labels.contains "jotnar_merged") = true
  · rw [if_pos hc]
    cases hm : (GITLAB_GROUPS.map
        (fun group => "redhat/" ++ group ++ "/" ++ (issue.components.getD 0 ""))).findSome?
        env.merged_mr with
    | none => exact ⟨rfl, rfl, rfl⟩
    | some mr_url =>
        refine ⟨rfl, rfl, ?_⟩
        simp
  · rw [if_neg hc]
    exact ⟨rfl, rfl, rfl⟩

/-- Claim C8: an issue snapshot with an advisory link, a single component, no
needs-attention label, `fixed_in_build` set, preliminary testing Pass,
non-empty test coverage, status Integration and no reproduction marker, whose
testing classification is passed (or waived), is transitioned to Release
Pending with a terminal (`reschedule_in < 0`) result. -/
theorem c8_integration_passed_releases (env : IssueEnv) (issue : FullIssue)
    (ignore_needs_attention : Bool)
    (hlink : issue.errata_link ≠ none)
    (hcomp : issue.components.length = 1)
    (hna : issue.labels.contains "jotnar_needs_attention" = false)
    (hfib : issue.fixed_in_build ≠ none)
    (hpt : issue.preliminary_testing = some PreliminaryTesting.PASS)
    (hcov : issue.test_coverage ≠ none ∧ issue.test_coverage ≠ some [])
    (hst : issue.status = IssueStatus.INTEGRATION)
    (hrep : issue.labels.contains "jotnar_reproducing_tests" = false)
    (hpassed : ∀ ab : Bool, (env.analyze ab).state = TestingState.PASSED ∨
      (env.analyze ab).state = TestingState.WAIVED) :
    ∃ step : HandlerStep,
      issueHandlerRun env issue ignore_needs_attention = .ok step ∧
      step.2.reschedule_in < 0 ∧
      ∃ comment, Effect.changeIssueStatus issue.key IssueStatus.RELEASE_PENDING comment ∈
        step.1 := by
  obtain ⟨link, hl⟩ : ∃ l, issue.errata_link = some l := by
    cases h : issue.errata_link with
    | none => exact absurd h hlink
    | some l => exact ⟨l, rfl⟩
  have hfields := label_merge_if_needed_fields env issue
  rcases hlm : label_merge_if_needed env issue with ⟨issue2, mergeEffects⟩
  rw [hlm] at hfields
  obtain ⟨hkey, hstatus, hrep2⟩ := hfields
  unfold issueHandlerRun
  rw [hna]
  simp only [Bool.false_and, Bool.false_eq_true, if_false]
  rw [if_neg (by rw [hcomp]; exact fun h => h rfl)]
  rw [hl]
  unfold run_after_errata_created
  rw [if_neg hfib]
  rw [if_neg (by rw [hpt]; exact fun h => h rfl)]
  rw [if_neg (by rintro (h | h); exacts [hcov.1 h, hcov.2 h])]
  rw [hlm]
  dsimp only
  dsimp only at hkey hstatus hrep2
  have hst2 : issue2.status = IssueStatus.INTEGRATION := by rw [hstatus, hst]
  rw [hst2]
  simp only [hrep2, hrep]
  rcases hpassed (load_from_issue issue2).isSome with hp | hp <;> rw [hp]
  · refine ⟨(mergeEffects ++ (issueSetStatus issue2 IssueStatus.RELEASE_PENDING
      (((env.analyze (load_from_issue issue2).isSome).comment).getD
        "Final testing has passed.")).1,
      (issueSetStatus issue2 IssueStatus.RELEASE_PENDING
        (((env.analyze (load_from_issue issue2).isSome).comment).getD
          "Final testing has passed.")).2), ?_, ?_, ?_⟩
    · rfl
    · simp [issueSetStatus]
    · refine ⟨"*Changing status from " ++ issue2.status.str ++ " => " ++
        IssueStatus.RELEASE_PENDING.str ++ "*\n\n" ++
        (((env.analyze (load_from_issue issue2).isSome).comment).getD
          "Final testing has passed."), ?_⟩
      rw [← hkey]
      exact List.mem_append_right _ (by simp [issueSetStatus])
  · refine ⟨(mergeEffects ++ (issueSetStatus issue2 IssueStatus.RELEASE_PENDING
      (((env.analyze (load_from_issue issue2).isSome).comment).getD
        "Final testing has been waived, moving to Release Pending.")).1,
      (issueSetStatus issue2 IssueStatus.RELEASE_PENDING
        (((env.analyze (load_from_issue issue2).isSome).comment).getD
          "Final testing has been waived, moving to Release Pending.")).2), ?_, ?_, ?_⟩
    · rfl
    · simp [issueSetStatus]
    · refine ⟨"*Changing status from " ++ issue2.status.str ++ " => " ++
        IssueStatus.RELEASE_PENDING.str ++ "*\n\n" ++
        (((env.analyze (load_from_issue issue2).isSome).comment).getD
          "Final testing has been waived, moving to Release Pending."), ?_⟩
      rw [← hkey]
      exact List.mem_append_right _ (by simp [issueSetStatus])

/-- An Integration-stage issue meeting all post-advisory preconditions. -/
def integrationIssue : FullIssue :=
  { key := "RHEL-2"
    url := "https://issues.redhat.com/browse/RHEL-2"
    components := ["libtiff"]
    status := IssueStatus.INTEGRATION
    labels := ["jotnar_backported", "jotnar_merged"]
    errata_link := some "https://errata.engineering.redhat.com/advisory/12345"
    fixed_in_build := some "libtiff-4.0.9-35.el8"
    test_coverage := some [TestCoverage.AUTOMATED]
    preliminary_testing := some PreliminaryTesting.PASS
    comments := [] }

theorem c8_integration_passed_releases_witness :
    integrationIssue.status = IssueStatus.INTEGRATION ∧
    integrationIssue.labels.contains "jotnar_reproducing_tests" = false ∧
    (∀ ab : Bool, (witIssueEnv.analyze ab).state = TestingState.PASSED ∨
      (witIssueEnv.analyze ab).state = TestingState.WAIVED) ∧
    ∃ step : HandlerStep,
      issueHandlerRun witIssueEnv integrationIssue false = .ok step ∧
      step.2.reschedule_in < 0 ∧
      ∃ comment, Effect.changeIssueStatus integrationIssue.key
        IssueStatus.RELEASE_PENDING comment ∈ step.1 :=
  ⟨by decide, by decide, by decide,
    c8_integration_passed_releases witIssueEnv integrationIssue false
      (by decide) (by decide) (by decide) (by decide) (by decide) (by decide)
      (by decide) (by decide) (by decide)⟩

/-! ## WorkQueue lemmas -/

theorem scheduleOne_key_eq (item : WorkItem) (ready : Int) (entry : WorkItem × Int) :
    ((if entry.1 == item then (item, ready) else entry) : WorkItem × Int).1 = entry.1 := by
  by_cases h : entry.1 == item
  · rw [if_pos h]
    exact (eq_of_beq h).symm
  · rw [if_neg h]

theorem queueIdentities_scheduleOne (state : WorkQueueState) (item : WorkItem)
    (ready : Int) (hnd : (queueIdentities state).Nodup) :
    (queueIdentities (scheduleOne state item ready)).Nodup := by
  unfold scheduleOne
  by_cases h : state.any (fun entry => entry.1 == item) = true
  · rw [if_pos h]
    have hq : queueIdentities (state.map
        (fun entry => if entry.1 == item then (item, ready) else entry)) =
        queueIdentities state := by
      unfold queueIdentities
      rw [List.map_map]
      exact List.map_congr_left (fun entry _ => scheduleOne_key_eq item ready entry)
    rw [hq]
    exact hnd
  · rw [if_neg h]
    have hfalse : ∀ e ∈ state, (e.1 == item) = false := by
      intro e he
      cases hb : (e.1 == item) with
      | false => rfl
      | true => exact absurd (List.any_eq_true.mpr ⟨e, he, hb⟩) h
    unfold queueIdentities at *
    rw [List.map_append, List.nodup_append]
    refine ⟨hnd, by simp, ?_⟩
    intro x hx hx2
    simp only [List.map_cons, List.map_nil, List.mem_cons, List.not_mem_nil,
      or_false] at hx2
    subst hx2
    simp only [List.mem_map] at hx
    obtain ⟨e, he, hfst⟩ := hx
    have hne := hfalse e he
    rw [hfst] at hne
    rw [beq_self_eq_true] at hne
    exact Bool.true_eq_false.mp hne

theorem scheduleOne_filter (state : WorkQueueState) (item : WorkItem) (ready : Int)
    (hnd : (queueIdentities state).Nodup) :
    (scheduleOne state item ready).filter (fun entry => entry.1 == item) =
      [(item, ready)] := by
  unfold scheduleOne
  by_cases h : state.any (fun entry => entry.1 == item) = true
  · rw [if_pos h]
    induction state with
    | nil => simp at h
    | cons e rest ih =>
        by_cases he : (e.1 == item) = true
        · have hei : e.1 = item := eq_of_beq he
          have hrest : ∀ e2 ∈ rest, (e2.1 == item) = false := by
            intro e2 he2
            unfold queueIdentities at hnd
            rw [List.map_cons, List.nodup_cons] at hnd
            cases hb : (e2.1 == item) with
            | false => rfl
            | true =>
                exact absurd (by rw [hei, ← eq_of_beq hb]
                                 exact List.mem_map_of_mem _ he2) hnd.1
          have hmapped : rest.map
              (fun entry => if entry.1 == item then (item, ready) else entry) = rest := by
            conv_rhs => rw [← List.map_id rest]
            exact List.map_congr_left (fun e2 he2 => if_neg (by simp [hrest e2 he2]))
          rw [List.map_cons, if_pos he, hmapped, List.filter_cons, if_pos (by simp)]
          have hnil : rest.filter (fun entry => entry.1 == item) = [] := by
            rw [List.filter_eq_nil_iff]
            intro e2 he2
            simp [hrest e2 he2]
          rw [hnil]
        · have hnd2 : (queueIdentities rest).Nodup := by
            unfold queueIdentities at *
            rw [List.map_cons, List.nodup_cons] at hnd
            exact hnd.2
          have h2 : rest.any (fun entry => entry.1 == item) = true := by
            rw [List.any_cons] at h
            simpa [he] using h
          rw [List.map_cons, if_neg he, List.filter_cons, if_neg (by simp [he])]
          exact ih hnd2 h2
  · rw [if_neg h]
    have hfalse : ∀ e ∈ state, (e.1 == item) = false := by
      intro e he
      cases hb : (e.1 == item) with
      | false => rfl
      | true => exact absurd (List.any_eq_true.mpr ⟨e, he, hb⟩) h
    rw [List.filter_append]
    have h1 : state.filter (fun entry => entry.1 == item) = [] := by
      rw [List.filter_eq_nil_iff]
      intro e he
      simp [hfalse e he]
    rw [h1, List.filter_cons, if_pos (by simp), List.filter_nil, List.nil_append]

theorem scheduleOne_mem (state : WorkQueueState) (item : WorkItem) (ready : Int) :
    (scheduleOne state item ready).any (fun entry => entry.1 == item) = true := by
  unfold scheduleOne
  by_cases h : state.any (fun entry => entry.1 == item) = true
  · rw [if_pos h]
    rw [List.any_eq_true] at h ⊢
    obtain ⟨e, he, hbe⟩ := h
    refine ⟨(item, ready), ?_, by simp⟩
    have hm := List.mem_map_of_mem
      (fun entry => if entry.1 == item then (item, ready) else entry) he
    simp only [hbe, if_true, ite_true] at hm
    exact hm
  · rw [if_neg h]
    rw [List.any_append]
    simp

/-- Claim C9 (spec-modelled, work_queue.py absent from src/): scheduling the
same WorkItem identity twice leaves exactly one queue entry for it, carrying
the ready-time of the most recent scheduling, and the queue never holds two
entries with the same identity. -/
theorem c9_schedule_twice_single_entry (state : WorkQueueState) (item : WorkItem)
    (t1 d1 t2 d2 : Int) (hnd : (queueIdentities state).Nodup) :
    ((schedule_work_items (schedule_work_items state [item] t1 d1) [item] t2 d2).filter
      (fun entry => entry.1 == item)) = [(item, t2 + d2)] ∧
    (queueIdentities
      (schedule_work_items (schedule_work_items state [item] t1 d1)
        [item] t2 d2)).Nodup := by
  have h1 : schedule_work_items state [item] t1 d1 = scheduleOne state item (t1 + d1) := by
    simp [schedule_work_items]
  have h2 : ∀ st : WorkQueueState,
      schedule_work_items st [item] t2 d2 = scheduleOne st item (t2 + d2) := by
    intro st
    simp [schedule_work_items]
  rw [h1, h2]
  have hnd1 := queueIdentities_scheduleOne state item (t1 + d1) hnd
  exact ⟨scheduleOne_filter _ item (t2 + d2) hnd1,
    queueIdentities_scheduleOne _ item (t2 + d2) hnd1⟩

theorem c9_schedule_twice_single_entry_witness :
    (queueIdentities []).Nodup ∧
    ((schedule_work_items
        (schedule_work_items [] [⟨WorkItemType.PROCESS_ISSUE, "RHEL-1"⟩] 100 5)
        [⟨WorkItemType.PROCESS_ISSUE, "RHEL-1"⟩] 200 7).filter
      (fun entry => entry.1 == (⟨WorkItemType.PROCESS_ISSUE, "RHEL-1"⟩ : WorkItem))) =
      [(⟨WorkItemType.PROCESS_ISSUE, "RHEL-1"⟩, 200 + 7)] :=
  ⟨by decide,
    (c9_schedule_twice_single_entry [] ⟨WorkItemType.PROCESS_ISSUE, "RHEL-1"⟩
      100 5 200 7 (by decide)).1⟩

end Supervisor
